import Mathlib

/-!
Verification of the runtime intent-based router core against its source.

This file gives a shallow embedding, in Lean 4, of the parts of the
TypeScript source that the checked claims are about:

* the job-polling orchestrator `FluxApiService.pollForCompletion` (and the
  slice of `generateImage` around it) from
  `src/server/src/services/flux-api.service.ts`;
* the in-memory session store `InMemorySessionManager` (createSession,
  getSession, addConversationTurn, addImage, getSessionImages,
  getActiveImages, setActiveImages);
* the edit-target resolver `ImageEditingGraph.determineTargetImage`, the
  contextual error message builder, and the target-resolution prefix of
  `ImageEditingGraph.execute`;
* the classifier glue `IntentDetectionService.detectIntent` and
  `parseLLMResponse`.

Conventions of the embedding:

* machine time (`Date.now()`, `uploadedAt`, `lastActivity`) is a `Nat` of
  epoch milliseconds passed explicitly to each operation;
* JavaScript `a || b` on possibly-absent values is modelled with the
  truthiness helpers below (`0` and the empty string are falsy);
* remote collaborators (the BFL image API, the LLM) are modelled as explicit
  function arguments: a status query becomes `Nat → BFLResponse` (the
  response to the k-th status query), the opaque LLM call becomes an
  `LLMOutcome` argument, JSON extraction from free text becomes an abstract
  `String → Option ParsedLLMJson` argument;
* promise rejections / thrown errors become `Except String` results or an
  explicit error constructor.
-/

/-- String helpers are implemented structurally over the character list so
that concrete instances reduce inside the kernel (the byte-position-based
core implementations do not): whether one character list starts with
another. -/
def charListStartsWith : List Char → List Char → Bool
  | _, [] => true
  | [], _ :: _ => false
  | h :: t, n :: ns => h = n && charListStartsWith t ns

/-- Whether one character list occurs inside another as a contiguous run. -/
def charListContains : List Char → List Char → Bool
  | [], needle => needle.isEmpty
  | h :: t, needle => charListStartsWith (h :: t) needle || charListContains t needle

/-- JavaScript `hay.includes(needle)`: substring test. -/
def jsIncludes (hay needle : String) : Bool :=
  charListContains hay.data needle.data

/-- JavaScript `s.toLowerCase()` (ASCII, as the source only compares ASCII
keywords). -/
def strToLower (s : String) : String :=
  String.mk (s.data.map Char.toLower)

/-- JavaScript `s.toUpperCase()` (ASCII). -/
def strToUpper (s : String) : String :=
  String.mk (s.data.map Char.toUpper)

/-- Split a character list on every occurrence of a separator character. -/
def splitOnChar (sep : Char) : List Char → List (List Char)
  | [] => [[]]
  | c :: t =>
    let rest := splitOnChar sep t
    if c = sep then [] :: rest
    else
      match rest with
      | r :: rs => (c :: r) :: rs
      | [] => [[c]]

/-- JavaScript `s.split(' ')`: split on every single space character. -/
def strSplitOnSpace (s : String) : List String :=
  (splitOnChar ' ' s.data).map String.mk

/-- JavaScript `s.trim()`: strip leading and trailing whitespace. -/
def strTrim (s : String) : String :=
  String.mk (((s.data.dropWhile Char.isWhitespace).reverse.dropWhile
    Char.isWhitespace).reverse)

/-- JavaScript truthiness filter for an optional number: `0` is falsy. -/
def jsTruthyN (o : Option Nat) : Option Nat :=
  match o with
  | some 0 => none
  | x => x

/-- JavaScript truthiness filter for an optional string: `""` is falsy. -/
def jsTruthyS (o : Option String) : Option String :=
  match o with
  | some s => if s = "" then none else some s
  | none => none

/-- JavaScript `a || b` for optional numbers (`result?.x || y`). -/
def jsOrN (a : Option Nat) (b : Nat) : Nat :=
  ((jsTruthyN a).getD b)

/-- JavaScript `a || b` for optional strings. -/
def jsOrS (a : Option String) (b : String) : String :=
  ((jsTruthyS a).getD b)

/-! ## Flux poll loop (`flux-api.service.ts`)

`FluxImageGenerationResponse` (the remote payload) and the canonical
converted result built at lines 254-267 of the source. -/

/-- The status strings of `FluxImageGenerationResponse.status`. -/
inductive FluxStatus where
  | pending
  | processing
  | completed
  | failed
  | Ready
  | Error
deriving DecidableEq, Repr

/-- One entry of `result.images` in the remote payload. -/
structure BFLImage where
  url : String
  width : Nat
  height : Nat
  content_type : String
deriving DecidableEq, Repr

/-- The `result` field of the remote payload: BFL uses `sample` plus
result-level `width`/`height`; the legacy shape uses an `images` array. -/
structure BFLResult where
  images : Option (List BFLImage)
  sample : Option String
  width : Option Nat
  height : Option Nat
deriving DecidableEq, Repr

/-- A remote status-query response (`FluxImageGenerationResponse`), with
`errorMessage` standing for `error?.message`. -/
structure BFLResponse where
  status : FluxStatus
  result : Option BFLResult
  errorMessage : Option String
deriving DecidableEq, Repr

/-- `result.result?.images?.[0]` of a remote response. -/
def bflImg0 (r : BFLResponse) : Option BFLImage :=
  r.result.bind (fun res => (res.images.getD []).head?)

/-- `result.result?.sample || result.result?.images?.[0]?.url || ''`. -/
def bflPickUrl (r : BFLResponse) : String :=
  ((jsTruthyS (r.result.bind (fun res => res.sample))).orElse
    (fun _ => jsTruthyS ((bflImg0 r).map (fun i => i.url)))).getD ""

/-- `result.result?.width || result.result?.images?.[0]?.width || 1024`. -/
def bflPickWidth (r : BFLResponse) : Nat :=
  ((jsTruthyN (r.result.bind (fun res => res.width))).orElse
    (fun _ => jsTruthyN ((bflImg0 r).map (fun i => i.width)))).getD 1024

/-- `result.result?.height || result.result?.images?.[0]?.height || 1024`. -/
def bflPickHeight (r : BFLResponse) : Nat :=
  ((jsTruthyN (r.result.bind (fun res => res.height))).orElse
    (fun _ => jsTruthyN ((bflImg0 r).map (fun i => i.height)))).getD 1024

/-- The canonical converted result that `pollForCompletion` returns on a
terminal `Ready`/`completed` status (timestamps elided). -/
structure ConvertedResponse where
  id : String
  status : FluxStatus
  images : List BFLImage
deriving DecidableEq, Repr

/-- Lines 254-267 of `flux-api.service.ts`: normalize the remote payload
into the canonical result (one image; `content_type` hard-coded). -/
def convertResult (generationId : String) (r : BFLResponse) : ConvertedResponse :=
  { id := generationId
    status := FluxStatus.completed
    images := [{ url := bflPickUrl r
                 width := bflPickWidth r
                 height := bflPickHeight r
                 content_type := "image/jpeg" }] }

/-- The message of the `Error`/`failed` throw at lines 271-272:
`(result as any).error?.message || 'Unknown error'`, wrapped. -/
def failedMessage (r : BFLResponse) : String :=
  "Image generation failed: " ++ jsOrS r.errorMessage "Unknown error"

/-- The message of the timeout throw at line 289. -/
def timeoutMessage (maxAttempts : Nat) : String :=
  "Image generation timed out after " ++ toString maxAttempts ++ " attempts"

/-- Outcome of the poll loop: a returned converted response or a thrown
error message. -/
inductive PollOutcome where
  | ok (res : ConvertedResponse)
  | error (msg : String)
deriving DecidableEq, Repr

/-- The body of `pollForCompletion` (lines 221-290). `remote k` is the
response to the k-th status query; the query index always equals the
`attempts` counter because every continuing iteration increments `attempts`
exactly once (line 275 on `pending`/`processing`, line 285 in the catch).
`fuel` is `maxAttempts - attempts`, so `fuel = 0` is the loop exit (the
timeout throw). The throw on a `failed`/`Error` status happens inside the
`try`, so the surrounding catch swallows it and retries unless
`attempts >= maxAttempts - 1`. The second component counts status queries
made. Transient network errors of the status query itself are not
modelled: `remote` is total. -/
def pollForCompletionAux (remote : Nat → BFLResponse) (generationId : String)
    (maxAttempts : Nat) : Nat → Nat → PollOutcome × Nat
  | _, 0 => (PollOutcome.error (timeoutMessage maxAttempts), 0)
  | attempts, fuel + 1 =>
    let r := remote attempts
    if r.status = FluxStatus.Ready ∨ r.status = FluxStatus.completed then
      (PollOutcome.ok (convertResult generationId r), 1)
    else if r.status = FluxStatus.Error ∨ r.status = FluxStatus.failed then
      if maxAttempts - 1 ≤ attempts then
        (PollOutcome.error (failedMessage r), 1)
      else
        let rest := pollForCompletionAux remote generationId maxAttempts (attempts + 1) fuel
        (rest.1, rest.2 + 1)
    else
      let rest := pollForCompletionAux remote generationId maxAttempts (attempts + 1) fuel
      (rest.1, rest.2 + 1)

/-- `FluxApiService.pollForCompletion(generationId, maxAttempts = 60)`. -/
def pollForCompletion (remote : Nat → BFLResponse) (generationId : String)
    (maxAttempts : Nat) : PollOutcome × Nat :=
  pollForCompletionAux remote generationId maxAttempts 0 maxAttempts

/-- `FluxImageGenerationRequest`. -/
structure FluxImageGenerationRequest where
  prompt : String
  model : Option String
  width : Option Nat
  height : Option Nat
  num_inference_steps : Option Nat
  guidance_scale : Option Nat
  seed : Option Nat
  output_format : Option String
deriving DecidableEq, Repr

/-- The payload that `generateImage` posts on the real-API path
(lines 177-187; `prompt_upsampling`/`safety_tolerance` constants elided). -/
structure GenPayload where
  prompt : String
  width : Nat
  height : Nat
  steps : Nat
  guidance : Nat
  output_format : String
deriving DecidableEq, Repr

/-- Payload construction of `generateImage`: defaults applied with `||`. -/
def genPayload (req : FluxImageGenerationRequest) : GenPayload :=
  { prompt := req.prompt
    width := jsOrN req.width 1024
    height := jsOrN req.height 1024
    steps := jsOrN req.num_inference_steps 28
    guidance := jsOrN req.guidance_scale 3
    output_format := jsOrS req.output_format "jpeg" }

/-- The real-API path of `generateImage` (lines 176-207): build the payload,
post it (`submit` stands for the HTTP call and yields `response.data.id`),
then poll with the default budget of 60 attempts. -/
def generateImage (submit : GenPayload → String) (remote : Nat → BFLResponse)
    (req : FluxImageGenerationRequest) : PollOutcome × Nat :=
  pollForCompletion remote (submit (genPayload req)) 60

/-- Width of the first image of an `ok` poll outcome, if any. -/
def firstImageWidth (o : PollOutcome) : Option Nat :=
  match o with
  | PollOutcome.ok c => (c.images.head?).map (fun i => i.width)
  | PollOutcome.error _ => none

/-- Whether a remote response carries no dimension information at all:
no result-level `width`/`height` and no first image. -/
def omitsDimensions (r : BFLResponse) : Bool :=
  match r.result with
  | none => true
  | some res => res.width.isNone && res.height.isNone && (res.images.getD []).isEmpty


/-! ## Session store (`InMemorySessionManager`, `types/session.ts`)

Maps are modelled as association lists in insertion order (a JS `Map`
preserves insertion order; `set` on an existing key updates in place). -/

/-- `IntentType` from `types/index.ts`. -/
inductive IntentType where
  | chat
  | generate_image
  | edit_image
  | unknown
deriving DecidableEq, Repr

/-- The `generatedBy` origin tag of `ImageMetadata`. -/
inductive ImageOrigin where
  | user_upload
  | flux_generation
deriving DecidableEq, Repr

/-- `ImageMetadata` from `types/session.ts` (`uploadedAt` in epoch ms). -/
structure ImageMetadata where
  id : String
  originalName : String
  mimeType : String
  size : Nat
  uploadedAt : Nat
  storageUrl : String
  thumbnailUrl : Option String
  description : Option String
  generatedBy : Option ImageOrigin
deriving DecidableEq, Repr

/-- The `response` payload of a `ConversationTurn`
(`ChatMessage | ImageMetadata | string`; the chat message is reduced to its
content). -/
inductive TurnResponse where
  | chatMsg (content : String)
  | imageMeta (img : ImageMetadata)
  | plain (s : String)
deriving DecidableEq, Repr

/-- `ConversationTurn` from `types/session.ts`. -/
structure ConversationTurn where
  id : String
  timestamp : Nat
  userInput : String
  detectedIntent : IntentType
  confidence : Rat
  response : TurnResponse
  contextUsed : Option (List String)
deriving DecidableEq, Repr

/-- The `currentContext` record of a session. -/
structure CurrentContext where
  lastIntent : Option IntentType
  activeImages : List String
  pendingAction : Option String
deriving DecidableEq, Repr

/-- The `preferences` record of a session. -/
structure SessionPreferences where
  preferredImageStyle : Option String
  commonEditingInstructions : Option (List String)
  chatPersonality : Option String
deriving DecidableEq, Repr

/-- The `metadata` counters of a session. -/
structure SessionMeta where
  totalMessages : Nat
  totalImagesUploaded : Nat
  totalImagesGenerated : Nat
deriving DecidableEq, Repr

/-- A JS `Map<string, ImageMetadata>` as an insertion-ordered assoc list. -/
abbrev ImageMap := List (String × ImageMetadata)

/-- `SessionState` from `types/session.ts` (times in epoch ms). -/
structure SessionState where
  sessionId : String
  createdAt : Nat
  lastActivity : Nat
  conversationHistory : List ConversationTurn
  currentContext : CurrentContext
  uploadedImages : ImageMap
  generatedImages : ImageMap
  preferences : SessionPreferences
  metadata : SessionMeta
deriving DecidableEq, Repr

/-- The manager state: `private sessions = new Map<string, SessionState>()`. -/
abbrev Store := List (String × SessionState)

/-- JS `Map.set`: update in place when the key exists, else append. -/
def jsMapSet {β : Type} (m : List (String × β)) (k : String) (v : β) :
    List (String × β) :=
  if (m.lookup k).isSome then
    m.map (fun p => if p.1 = k then (k, v) else p)
  else
    m ++ [(k, v)]

/-- JS `Map.delete`. -/
def jsMapDelete {β : Type} (m : List (String × β)) (k : String) :
    List (String × β) :=
  m.filter (fun p => p.1 ≠ k)

/-- `SESSION_TIMEOUT = 24 * 60 * 60 * 1000`. -/
def SESSION_TIMEOUT : Nat := 24 * 60 * 60 * 1000

/-- `MAX_CONVERSATION_HISTORY = 50`. -/
def MAX_CONVERSATION_HISTORY : Nat := 50

/-- `MAX_ACTIVE_IMAGES = 10`. -/
def MAX_ACTIVE_IMAGES : Nat := 10

/-- `createSession` (lines 330-362): a fresh empty session stored under the
given id (the uuid is passed in; `userId` only feeds logging). -/
def createSession (store : Store) (sessionId : String) (now : Nat) :
    SessionState × Store :=
  let session : SessionState :=
    { sessionId := sessionId
      createdAt := now
      lastActivity := now
      conversationHistory := []
      currentContext := { lastIntent := none, activeImages := [], pendingAction := none }
      uploadedImages := []
      generatedImages := []
      preferences := { preferredImageStyle := none, commonEditingInstructions := none,
                       chatPersonality := none }
      metadata := { totalMessages := 0, totalImagesUploaded := 0, totalImagesGenerated := 0 } }
  (session, jsMapSet store sessionId session)

/-- `getSession` (lines 364-379): `null` when absent; lazy expiry when
`Date.now() - lastActivity > SESSION_TIMEOUT` (the expired session is
deleted as a side effect). Returns the found session and the store after
any deletion. -/
def getSession (store : Store) (sessionId : String) (now : Nat) :
    Option SessionState × Store :=
  match store.lookup sessionId with
  | none => (none, store)
  | some session =>
    if SESSION_TIMEOUT < now - session.lastActivity then
      (none, jsMapDelete store sessionId)
    else
      (some session, store)

/-- `addConversationTurn` (lines 393-414): throws when the session is gone;
otherwise appends the turn, updates the last-intent pointer and counters,
touches `lastActivity`, and trims history to the last
`MAX_CONVERSATION_HISTORY` entries (`slice(-MAX)`). -/
def addConversationTurn (store : Store) (sessionId : String)
    (turn : ConversationTurn) (now : Nat) : Except String Store :=
  match getSession store sessionId now with
  | (none, _) => Except.error ("Session " ++ sessionId ++ " not found")
  | (some s, store1) =>
    let hist := s.conversationHistory ++ [turn]
    let hist2 :=
      if MAX_CONVERSATION_HISTORY < hist.length then
        hist.drop (hist.length - MAX_CONVERSATION_HISTORY)
      else hist
    let s2 : SessionState :=
      { s with
        conversationHistory := hist2
        currentContext := { s.currentContext with lastIntent := some turn.detectedIntent }
        metadata := { s.metadata with totalMessages := s.metadata.totalMessages + 1 }
        lastActivity := now }
    Except.ok (jsMapSet store1 sessionId s2)

/-- The session mutation of `addImage` (lines 422-435): store into the map
picked by `generatedBy === 'user_upload'`; append the id to the
active-image list only when the list is below `MAX_ACTIVE_IMAGES`
(`if (length < MAX) push`); touch `lastActivity`. -/
def addImageToSession (s : SessionState) (image : ImageMetadata) (now : Nat) :
    SessionState :=
  let s1 : SessionState :=
    if image.generatedBy = some ImageOrigin.user_upload then
      { s with
        uploadedImages := jsMapSet s.uploadedImages image.id image
        metadata := { s.metadata with
                      totalImagesUploaded := s.metadata.totalImagesUploaded + 1 } }
    else
      { s with
        generatedImages := jsMapSet s.generatedImages image.id image
        metadata := { s.metadata with
                      totalImagesGenerated := s.metadata.totalImagesGenerated + 1 } }
  let s2 : SessionState :=
    if s1.currentContext.activeImages.length < MAX_ACTIVE_IMAGES then
      { s1 with
        currentContext := { s1.currentContext with
                            activeImages := s1.currentContext.activeImages ++ [image.id] } }
    else s1
  { s2 with lastActivity := now }

/-- `addImage` (lines 416-442): throws when the session is gone, else
applies `addImageToSession` and writes the session back. -/
def addImage (store : Store) (sessionId : String) (image : ImageMetadata)
    (now : Nat) : Except String Store :=
  match getSession store sessionId now with
  | (none, _) => Except.error ("Session " ++ sessionId ++ " not found")
  | (some s, store1) =>
    Except.ok (jsMapSet store1 sessionId (addImageToSession s image now))

/-- Stable insertion of an image into a list sorted by `uploadedAt`
descending: the new element goes before the first strictly older element
and after earlier-listed equal ones (this is what the stable JS
`sort((a, b) => b.uploadedAt - a.uploadedAt)` produces). -/
def insertByRecency (img : ImageMetadata) : List ImageMetadata → List ImageMetadata
  | [] => [img]
  | x :: xs =>
    if x.uploadedAt ≤ img.uploadedAt then img :: x :: xs
    else x :: insertByRecency img xs

/-- Stable sort by `uploadedAt` descending. -/
def sortImagesByRecency (imgs : List ImageMetadata) : List ImageMetadata :=
  imgs.foldr insertByRecency []

/-- `getSessionImages` (lines 444-456): all uploaded then generated values,
sorted most-recent-first. Returns `[]` when the session is gone. -/
def getSessionImages (store : Store) (sessionId : String) (now : Nat) :
    List ImageMetadata × Store :=
  match getSession store sessionId now with
  | (none, store1) => ([], store1)
  | (some s, store1) =>
    (sortImagesByRecency (s.uploadedImages.map (fun p => p.2) ++
                          s.generatedImages.map (fun p => p.2)), store1)

/-- `getActiveImages` (lines 458-474): resolve each active id through
`uploadedImages.get(id) || generatedImages.get(id)`, skipping dangling ids. -/
def getActiveImages (store : Store) (sessionId : String) (now : Nat) :
    List ImageMetadata × Store :=
  match getSession store sessionId now with
  | (none, store1) => ([], store1)
  | (some s, store1) =>
    (s.currentContext.activeImages.filterMap (fun id =>
       (s.uploadedImages.lookup id).orElse (fun _ => s.generatedImages.lookup id)),
     store1)

/-- `setActiveImages` (lines 476-486): throws when the session is gone;
overwrites the active list with `imageIds.slice(0, MAX_ACTIVE_IMAGES)`
without checking the ids against the image maps; touches `lastActivity`. -/
def setActiveImages (store : Store) (sessionId : String) (imageIds : List String)
    (now : Nat) : Except String Store :=
  match getSession store sessionId now with
  | (none, _) => Except.error ("Session " ++ sessionId ++ " not found")
  | (some s, store1) =>
    let s2 : SessionState :=
      { s with
        currentContext := { s.currentContext with
                            activeImages := imageIds.take MAX_ACTIVE_IMAGES }
        lastActivity := now }
    Except.ok (jsMapSet store1 sessionId s2)

/-! ## Edit-target resolution (`image-editing.graph.ts`) -/

/-- First token of the lowercased instruction:
`instructionLower.split(' ')[0]`. -/
def firstToken (instructionLower : String) : String :=
  (strSplitOnSpace instructionLower).headD ""

/-- The per-image test of the keyword-match step (lines 376-381): the given
token is a substring of the lowercased description (`description?.toLowerCase()
|| ''`) or of the lowercased original filename. -/
def keywordMatches (tok : String) (img : ImageMetadata) : Bool :=
  jsIncludes (strToLower (img.description.getD "")) tok ||
  jsIncludes (strToLower img.originalName) tok

/-- All images of a session, most recent first, exactly as
`getSessionImages` lists them. -/
def allSessionImages (s : SessionState) : List ImageMetadata :=
  sortImagesByRecency (s.uploadedImages.map (fun p => p.2) ++
                       s.generatedImages.map (fun p => p.2))

/-- `ImageEditingGraph.determineTargetImage` (lines 345-394) on a
successfully fetched session: return the raw head of the active-image list
when non-empty; else, over all images most-recent-first, apply the
recency/origin markers, then the keyword match on the FIRST token of the
instruction, then fall back to the most recent image; `none` when the
session has no images. -/
def determineTargetImage (s : SessionState) (instruction : String) : Option String :=
  if s.currentContext.activeImages.length > 0 then
    s.currentContext.activeImages.head?
  else
    let allImages := allSessionImages s
    if allImages.length = 0 then none
    else
      let il := strToLower instruction
      if jsIncludes il "last" || jsIncludes il "recent" then
        (allImages.head?).map (fun i => i.id)
      else if jsIncludes il "first" || jsIncludes il "original" then
        (allImages.getLast?).map (fun i => i.id)
      else
        match allImages.find? (keywordMatches (firstToken il)) with
        | some m => some m.id
        | none => (allImages.head?).map (fun i => i.id)

/-- Whether the instruction carries a recency or origin marker (the claim
phrasing for the conditions of steps 2-3 of the resolver). -/
def hasRecencyOrOriginMarker (instruction : String) : Bool :=
  jsIncludes (strToLower instruction) "last" || jsIncludes (strToLower instruction) "recent" ||
  jsIncludes (strToLower instruction) "first" || jsIncludes (strToLower instruction) "original"

/-- The keyword-match step as the source implements it, stated standalone
for comparison: test the FIRST whitespace token of the instruction against
each image, first match in recency order, falling back to the most recent
image (`none` when there are no images). -/
def keywordStepTarget (s : SessionState) (instruction : String) : Option String :=
  let allImages := allSessionImages s
  match allImages.find? (keywordMatches (firstToken (strToLower instruction))) with
  | some m => some m.id
  | none => (allImages.head?).map (fun i => i.id)

/-- The keyword-match step as the CLAIM words it: split the instruction into
tokens and test whether ANY token appears in an image description or
filename, first match in recency order, with the same fallback. This
definition follows the claim text, not the source, and exists to be
compared against `determineTargetImage`. -/
def anyTokenKeywordTarget (s : SessionState) (instruction : String) : Option String :=
  let allImages := allSessionImages s
  let toks := strSplitOnSpace (strToLower instruction)
  match allImages.find? (fun img => toks.any (fun t => keywordMatches t img)) with
  | some m => some m.id
  | none => (allImages.head?).map (fun i => i.id)

/-! ## Image editing workflow (`ImageEditingGraph.execute` and helpers) -/

/-- The no-image message of `getContextualErrorMessage` when the
instruction names a specific edit (lines 314-317). -/
def noImagesSpecificMessage (instructionLower : String) : String :=
  "I\x27d love to " ++ instructionLower ++
  ", but I don\x27t see any images to edit yet. " ++
  "You can either upload an image or generate one first. " ++
  "For example, try \"Generate a landscape image\" first, then I can make it gothic and satanic."

/-- The generic no-image message (lines 319-320). -/
def noImagesGenericMessage : String :=
  "No images available for editing. Please upload an image or generate one first. " ++
  "Try: \"Upload an image\" or \"Generate a beautiful landscape\""

/-- `getContextualErrorMessage` (lines 295-340), over the already-fetched
session (`none` when `getSession` found nothing). -/
def getContextualErrorMessage (sOpt : Option SessionState) (instruction : String) :
    String :=
  match sOpt with
  | none => "Session not found. Please refresh and try again."
  | some s =>
    let hasUploadedImages := s.uploadedImages.length > 0
    let hasGeneratedImages := s.generatedImages.length > 0
    let il := strToLower instruction
    let isSpecificEdit := jsIncludes il "gothic" || jsIncludes il "brighter" ||
                          jsIncludes il "style" || jsIncludes il "color"
    if ¬ hasUploadedImages ∧ ¬ hasGeneratedImages then
      if isSpecificEdit then noImagesSpecificMessage il
      else noImagesGenericMessage
    else if hasGeneratedImages ∧ ¬ hasUploadedImages then
      "I found some generated images in our conversation, but they might have expired. " ++
      "Try generating a new image first, then ask me to edit it."
    else if hasUploadedImages ∧ ¬ hasGeneratedImages then
      "I found some uploaded images in our conversation, but I\x27m having trouble accessing them. " ++
      "Try uploading a new image or generating one fresh."
    else
      "I couldn\x27t find a suitable image to edit. Please specify which image to edit or upload/generate a new one."

/-- The fixed suggestion list returned with the no-target failure
(lines 188-192 of `execute`). -/
def noTargetSuggestions : List String :=
  ["Upload an image to edit",
   "Generate an image first, then edit it",
   "Try: \"Create a sunset image and then make it brighter\""]

/-- `generateEditingSuggestions` (lines 529-570). -/
def generateEditingSuggestions (editType : String) : List String :=
  if editType = "enhance" then
    ["Try a different enhancement style?",
     "Adjust the enhancement strength?",
     "Apply additional color correction?"]
  else if editType = "inpaint" then
    ["Edit another area of the image?",
     "Refine the current edit?",
     "Try a different object in the same area?"]
  else if editType = "style_transfer" then
    ["Try a different artistic style?",
     "Adjust the style strength?",
     "Apply the style to a different image?"]
  else if editType = "variant" then
    ["Generate more variations?",
     "Try a different variation style?",
     "Create variations of the edited result?"]
  else
    ["Apply a different edit to this image?",
     "Generate a variation of this edit?",
     "Try editing another image?"]

/-- `ImageEditingRequest` of the graph. -/
structure EditRequest where
  editInstruction : String
  sessionId : String
  targetImageId : Option String
  editType : Option String
  maskData : Option String
  strength : Option Rat
  guidance : Option Rat
deriving DecidableEq, Repr

/-- Outcome of `performImageEdit`'s remote call
(`fluxApiService.editImage`), passed in as an opaque collaborator result. -/
structure EditApiOutcome where
  success : Bool
  imageUrl : Option String
  size : Option Nat
  error : Option String
deriving DecidableEq, Repr

/-- `ImageEditingResult` of the graph (timing elided). -/
structure EditExecResult where
  success : Bool
  originalImageMetadata : Option ImageMetadata
  editedImageMetadata : Option ImageMetadata
  enhancedInstruction : Option String
  editType : Option String
  error : Option String
  suggestions : Option (List String)
deriving DecidableEq, Repr

/-- The target-found tail of `execute` (steps 2-6, lines 197-275):
resolve the target image in the maps, take the (never-throwing)
instruction-enhancement outcome `analyze = (enhancedInstruction, editType)`,
perform the remote edit (outcome `fluxEdit`, counted as one remote call),
store the edited image, and assemble the success result. An `addImage`
throw is caught by the outer catch and yields a failure result. -/
def executeWithTarget (store1 : Store) (s : SessionState) (targetImageId : String)
    (req : EditRequest) (now : Nat) (analyze : String × String)
    (fluxEdit : EditApiOutcome) (newId : String) :
    EditExecResult × Store × Nat :=
  match (s.uploadedImages.lookup targetImageId).orElse
      (fun _ => s.generatedImages.lookup targetImageId) with
  | none =>
    ({ success := false, originalImageMetadata := none, editedImageMetadata := none,
       enhancedInstruction := none, editType := none,
       error := some "Target image not found in session", suggestions := none },
     store1, 0)
  | some originalImage =>
    let enhancedInstruction := analyze.1
    let editType := analyze.2
    if fluxEdit.success ∧ (jsTruthyS fluxEdit.imageUrl).isSome then
      let edited : ImageMetadata :=
        { id := newId
          originalName := "edited_" ++ originalImage.originalName
          mimeType := originalImage.mimeType
          size := jsOrN fluxEdit.size originalImage.size
          uploadedAt := now
          storageUrl := fluxEdit.imageUrl.getD ""
          thumbnailUrl := none
          description := some ("Edited: " ++ enhancedInstruction)
          generatedBy := some ImageOrigin.flux_generation }
      match addImage store1 req.sessionId edited now with
      | Except.ok store2 =>
        ({ success := true, originalImageMetadata := some originalImage,
           editedImageMetadata := some edited,
           enhancedInstruction := some enhancedInstruction,
           editType := some editType, error := none,
           suggestions := some (generateEditingSuggestions editType) },
         store2, 1)
      | Except.error msg =>
        ({ success := false, originalImageMetadata := none, editedImageMetadata := none,
           enhancedInstruction := none, editType := none,
           error := some msg, suggestions := none },
         store1, 1)
    else
      ({ success := false, originalImageMetadata := none, editedImageMetadata := none,
         enhancedInstruction := none, editType := none,
         error := some (jsOrS fluxEdit.error "Image editing failed"), suggestions := none },
       store1, 1)

/-- `ImageEditingGraph.execute` (lines 162-290). The third component counts
remote `editImage` calls. `analyze` is the outcome of the total
`analyzeAndEnhanceInstruction` step (both config flags default to enabled),
`fluxEdit` the outcome of the remote edit call if one is made, `newId` the
uuid for the edited image. All `getSession` calls of the workflow happen at
the same `now`, so they agree. -/
def execute (store : Store) (req : EditRequest) (now : Nat)
    (analyze : String × String) (fluxEdit : EditApiOutcome) (newId : String) :
    EditExecResult × Store × Nat :=
  match getSession store req.sessionId now with
  | (sOpt, store1) =>
    match req.targetImageId with
    | some tid =>
      match sOpt with
      | none =>
        ({ success := false, originalImageMetadata := none, editedImageMetadata := none,
           enhancedInstruction := none, editType := none,
           error := some "Session not found", suggestions := none },
         store1, 0)
      | some s => executeWithTarget store1 s tid req now analyze fluxEdit newId
    | none =>
      match sOpt with
      | none =>
        ({ success := false, originalImageMetadata := none, editedImageMetadata := none,
           enhancedInstruction := none, editType := none,
           error := some (getContextualErrorMessage none req.editInstruction),
           suggestions := some noTargetSuggestions },
         store1, 0)
      | some s =>
        match determineTargetImage s req.editInstruction with
        | none =>
          ({ success := false, originalImageMetadata := none, editedImageMetadata := none,
             enhancedInstruction := none, editType := none,
             error := some (getContextualErrorMessage (some s) req.editInstruction),
             suggestions := some noTargetSuggestions },
           store1, 0)
        | some tid => executeWithTarget store1 s tid req now analyze fluxEdit newId

/-! ## Intent detection (`intent-detection.service.ts`)

The remote LLM call and the JSON machinery are opaque collaborators:
`LLMOutcome` is what one graph execution produced, and
`jsonOf : String → Option ParsedLLMJson` stands for
`responseText.match(curly-brace regex)` plus `JSON.parse` (`none` covers
both no match and a parse error). `cleanPrompt` is pure text munging (regex
word removal) that no claim depends on, so it is passed in as an opaque
`clean : String → List String → String` argument. -/

/-- `extractedParams` of an `IntentResult`. -/
structure ExtractedParams where
  prompt : Option String
  imageUrl : Option String
  editInstructions : Option String
deriving DecidableEq, Repr

/-- A JavaScript number as far as the confidence pipeline can observe it:
either an actual numeric value (a JSON number, or the numeric coercion of a
null/boolean/numeric-string confidence) or `NaN` (the coercion of any
non-numeric confidence value, e.g. the string `abc` or an object). Finite
JS doubles are modelled as rationals; the clamp cannot produce infinities
from finite inputs, and JSON itself has no infinity literal. -/
inductive JsNum where
  | num (q : Rat)
  | nan
deriving DecidableEq, Repr

/-- `IntentResult` from `types/index.ts`. The confidence is whatever
`Math.max(0, Math.min(1, parsed.confidence))` produced, so it can be `NaN`
when the LLM supplied a non-numeric confidence. -/
structure IntentResult where
  intent : IntentType
  confidence : JsNum
  extractedParams : ExtractedParams
deriving DecidableEq, Repr

/-- `ServiceResponse<IntentResult>` (timestamp elided). -/
structure IntentServiceResponse where
  success : Bool
  data : Option IntentResult
  error : Option String
deriving DecidableEq, Repr

/-- What one LLM graph execution produced: a thrown error anywhere in the
call, a stream that ended without any parseable response (the
`No valid response received from LLM` throw), or a final response text. -/
inductive LLMOutcome where
  | failure
  | noResult
  | response (text : String)
deriving DecidableEq, Repr

/-- The JSON object extracted from the response text, when the regex
matched and `JSON.parse` succeeded. `intent` is checked for truthiness
(`none` also folds in a truthy non-string intent, whose
`toUpperCase()` inside `validateIntent` throws within the same try and
lands in the text fallback exactly like a falsy intent). `confidence` is
checked only against `undefined`; when present it carries the `ToNumber`
coercion that `Math.min` applies to the raw JSON value, which is `nan`
for any non-numeric value such as the string `abc`. -/
structure ParsedLLMJson where
  intent : Option String
  confidence : Option JsNum
deriving DecidableEq, Repr

/-- `validateIntent` (lines 1495-1510). -/
def validateIntent (intentString : String) : IntentType :=
  let upperIntent := strToUpper intentString
  if upperIntent = "GENERATE_IMAGE" ∨ upperIntent = "GENERATE IMAGE" then
    IntentType.generate_image
  else if upperIntent = "EDIT_IMAGE" ∨ upperIntent = "EDIT IMAGE" then
    IntentType.edit_image
  else
    IntentType.chat

/-- `Math.max(0, Math.min(1, parsed.confidence))` (line 1455): both
`Math.min` and `Math.max` propagate `NaN`, so a non-numeric confidence
passes through the clamp as `NaN`. -/
def clampConfidence (c : JsNum) : JsNum :=
  match c with
  | JsNum.num q => JsNum.num (max 0 (min 1 q))
  | JsNum.nan => JsNum.nan

/-- `extractParameters` (lines 1512-1528), with the regex-based
`cleanPrompt` passed in as `clean`. -/
def extractParameters (clean : String → List String → String)
    (input : String) (intent : IntentType) : ExtractedParams :=
  match intent with
  | IntentType.generate_image =>
    { prompt := some (clean input ["generate", "create", "make", "draw", "image", "picture"])
      imageUrl := none, editInstructions := none }
  | IntentType.edit_image =>
    { prompt := none, imageUrl := none
      editInstructions := some (clean input ["edit", "modify", "change", "adjust"]) }
  | _ => { prompt := some input, imageUrl := none, editInstructions := none }

/-- The text-scan fallback of `parseLLMResponse` (lines 1468-1492). -/
def parseTextFallback (clean : String → List String → String)
    (responseText originalInput : String) : IntentResult :=
  let responseUpper := strToUpper responseText
  if jsIncludes responseUpper "GENERATE_IMAGE" || jsIncludes responseUpper "GENERATE IMAGE" then
    { intent := IntentType.generate_image, confidence := JsNum.num (7 / 10)
      extractedParams := extractParameters clean originalInput IntentType.generate_image }
  else if jsIncludes responseUpper "EDIT_IMAGE" || jsIncludes responseUpper "EDIT IMAGE" then
    { intent := IntentType.edit_image, confidence := JsNum.num (7 / 10)
      extractedParams := extractParameters clean originalInput IntentType.edit_image }
  else
    { intent := IntentType.chat, confidence := JsNum.num (6 / 10)
      extractedParams := extractParameters clean originalInput IntentType.chat }

/-- The result built from a successfully extracted JSON object
(lines 1453-1461): validated intent, clamped confidence. -/
def jsonIntentResult (clean : String → List String → String)
    (originalInput : String) (i : String) (c : JsNum) : IntentResult :=
  let intent := validateIntent i
  { intent := intent, confidence := clampConfidence c
    extractedParams := extractParameters clean originalInput intent }

/-- The guarded use of an extracted JSON object (lines 1453-1462): take it
when it has a truthy `intent` and a defined `confidence`, else fall through
to the text scan. -/
def parseJsonBranch (clean : String → List String → String)
    (responseText originalInput : String) (parsed : ParsedLLMJson) : IntentResult :=
  match jsTruthyS parsed.intent, parsed.confidence with
  | some i, some c => jsonIntentResult clean originalInput i c
  | _, _ => parseTextFallback clean responseText originalInput

/-- `parseLLMResponse` (lines 1445-1493): use the extracted JSON when it has
a truthy `intent` and a defined `confidence` (clamping the confidence,
which leaves a non-numeric `NaN` confidence as `NaN`); otherwise scan the
response text. -/
def parseLLMResponse (jsonOf : String → Option ParsedLLMJson)
    (clean : String → List String → String)
    (responseText originalInput : String) : IntentResult :=
  match jsonOf responseText with
  | some parsed => parseJsonBranch clean responseText originalInput parsed
  | none => parseTextFallback clean responseText originalInput

/-- The catch-all fallback of `detectIntent` (lines 1428-1442): a successful
response carrying the `chat` intent at confidence 0.5 with the original
input as the prompt parameter. -/
def chatFallbackResponse (input : String) : IntentServiceResponse :=
  { success := true
    data := some { intent := IntentType.chat, confidence := JsNum.num (1 / 2)
                   extractedParams := { prompt := some input, imageUrl := none,
                                        editInstructions := none } }
    error := none }

/-- `detectIntent` (lines 1286-1443): every internal throw (service not
initialized, graph start failure, non-iterable stream, stream without a
parseable response) lands in the catch and yields the chat fallback; a
response text is trimmed and parsed. -/
def detectIntent (jsonOf : String → Option ParsedLLMJson)
    (clean : String → List String → String)
    (initialized : Bool) (llm : LLMOutcome) (input : String) :
    IntentServiceResponse :=
  if initialized = false then chatFallbackResponse input
  else
    match llm with
    | LLMOutcome.failure => chatFallbackResponse input
    | LLMOutcome.noResult => chatFallbackResponse input
    | LLMOutcome.response t =>
      { success := true
        data := some (parseLLMResponse jsonOf clean (strTrim t) input)
        error := none }

/-! ## Operation sequences over the session store (for the active-image
map-membership invariant) -/

/-- Membership of an id in exactly one of two maps. -/
def inExactlyOne (u g : ImageMap) (id : String) : Bool :=
  ((u.lookup id).isSome && (g.lookup id).isNone) ||
  ((u.lookup id).isNone && (g.lookup id).isSome)

/-- Membership of an image id in exactly one of the two image maps. -/
def imageInExactlyOne (s : SessionState) (id : String) : Bool :=
  inExactlyOne s.uploadedImages s.generatedImages id

/-- Every active id of the session is in exactly one image map. -/
def sessionImagesConsistent (s : SessionState) : Bool :=
  s.currentContext.activeImages.all (imageInExactlyOne s)

/-- The invariant over the whole store. -/
def storeConsistent (store : Store) : Bool :=
  store.all (fun p => sessionImagesConsistent p.2)

/-- One session-store operation (the operations the claim ranges over). -/
inductive SessionOp where
  | create (sid : String) (now : Nat)
  | addImg (sid : String) (img : ImageMetadata) (now : Nat)
  | addTurn (sid : String) (turn : ConversationTurn) (now : Nat)
  | setActive (sid : String) (ids : List String) (now : Nat)
  | getActive (sid : String) (now : Nat)
deriving Repr

/-- Apply one operation to the store. A thrown `SessionNotFound` leaves the
store as the failed call left it (its `getSession` may have deleted an
expired session). -/
def applySessionOp (store : Store) : SessionOp → Store
  | SessionOp.create sid now => (createSession store sid now).2
  | SessionOp.addImg sid img now =>
    match addImage store sid img now with
    | Except.ok st => st
    | Except.error _ => (getSession store sid now).2
  | SessionOp.addTurn sid turn now =>
    match addConversationTurn store sid turn now with
    | Except.ok st => st
    | Except.error _ => (getSession store sid now).2
  | SessionOp.setActive sid ids now =>
    match setActiveImages store sid ids now with
    | Except.ok st => st
    | Except.error _ => (getSession store sid now).2
  | SessionOp.getActive sid now => (getActiveImages store sid now).2

/-- The side conditions under which the invariant is preserved: `addImage`
only with an image id that is fresh for its session, `setActiveImages` only
with ids each present in exactly one of the session's maps. -/
def sessionOpAllowed (store : Store) : SessionOp → Bool
  | SessionOp.addImg sid img now =>
    match (getSession store sid now).1 with
    | some s => (s.uploadedImages.lookup img.id).isNone &&
                (s.generatedImages.lookup img.id).isNone
    | none => true
  | SessionOp.setActive sid ids now =>
    match (getSession store sid now).1 with
    | some s => ids.all (imageInExactlyOne s)
    | none => true
  | _ => true

/-- All operations of a sequence are allowed, each in the store the
previous ones produced. -/
def sessionOpsAllowed (store : Store) : List SessionOp → Bool
  | [] => true
  | op :: rest => sessionOpAllowed store op && sessionOpsAllowed (applySessionOp store op) rest

/-- Run a sequence of operations. -/
def runSessionOps (store : Store) (ops : List SessionOp) : Store :=
  ops.foldl applySessionOp store

/-! ## Concrete fixtures for counterexamples and witnesses -/

/-- A remote that reports `failed` with message `quota exceeded` on every
status query. -/
def quotaRemote : Nat → BFLResponse :=
  fun _ => { status := FluxStatus.failed, result := none,
             errorMessage := some "quota exceeded" }

/-- A remote that answers `failed` with a fixed optional error message. -/
def constFailedRemote (err : Option String) : Nat → BFLResponse :=
  fun _ => { status := FluxStatus.failed, result := none, errorMessage := err }

/-- A remote that reports `processing` on its first `n` status queries and
the given terminal response afterwards. -/
def processingThenRemote (n : Nat) (done : BFLResponse) : Nat → BFLResponse :=
  fun k => if k < n then { status := FluxStatus.processing, result := none,
                           errorMessage := none }
           else done

/-- A concrete `completed` remote response (with dimensions). -/
def doneResponseC3 : BFLResponse :=
  { status := FluxStatus.completed
    result := some { images := none, sample := some "https://img/sunset.jpg",
                     width := some 768, height := some 768 }
    errorMessage := none }

/-- A `completed` remote response that omits all dimension information. -/
def doneResponseNoDims : BFLResponse :=
  { status := FluxStatus.completed
    result := some { images := none, sample := some "https://img/out.jpg",
                     width := none, height := none }
    errorMessage := none }

/-- A remote that completes on the very first status query, omitting
dimensions. -/
def remoteNoDims : Nat → BFLResponse := fun _ => doneResponseNoDims

/-- A generation request asking for 512 x 512. -/
def request512 : FluxImageGenerationRequest :=
  { prompt := "a cat", model := none, width := some 512, height := some 512,
    num_inference_steps := none, guidance_scale := none, seed := none,
    output_format := none }

/-- Unwrap an `Except`-producing store operation, keeping the old store on
error (only used to build concrete test stores whose operations succeed). -/
def expectStore (store : Store) (e : Except String Store) : Store :=
  match e with
  | Except.ok st => st
  | Except.error _ => store

/-- A store holding one freshly created empty session `s1` at time 0. -/
def emptySessionStore : Store := (createSession [] "s1" 0).2

/-- The n-th concrete generated image (`uploadedAt = n`). -/
def mkGenImage (n : Nat) : ImageMetadata :=
  { id := "img" ++ toString n
    originalName := "gen" ++ toString n ++ ".jpg"
    mimeType := "image/jpeg"
    size := 1000
    uploadedAt := n
    storageUrl := "https://img/gen" ++ toString n
    thumbnailUrl := none
    description := some "generated"
    generatedBy := some ImageOrigin.flux_generation }

/-- The active-image id list of a stored session (empty when absent). -/
def activeIdsOf (store : Store) (sessionId : String) : List String :=
  match store.lookup sessionId with
  | some s => s.currentContext.activeImages
  | none => []

/-- Session `s1` after adding `img0` then `img1` at time 0. -/
def storeAfterTwoImages : Store :=
  expectStore emptySessionStore
    (addImage (expectStore emptySessionStore (addImage emptySessionStore "s1" (mkGenImage 0) 0))
      "s1" (mkGenImage 1) 0)

/-- Session `s1` after adding `img0` .. `img10` (eleven images) at time 0. -/
def storeAfterElevenImages : Store :=
  (List.range 11).foldl (fun st n => expectStore st (addImage st "s1" (mkGenImage n) 0))
    emptySessionStore

/-- An uploaded image whose description mentions a dog (most recent). -/
def dogImage : ImageMetadata :=
  { id := "dog1", originalName := "photo-a.jpg", mimeType := "image/jpeg",
    size := 500, uploadedAt := 200, storageUrl := "https://img/dog",
    thumbnailUrl := none, description := some "a dog", generatedBy := some ImageOrigin.user_upload }

/-- An uploaded image whose description mentions a sunset (older). -/
def sunsetImage : ImageMetadata :=
  { id := "sun1", originalName := "photo-b.jpg", mimeType := "image/jpeg",
    size := 500, uploadedAt := 100, storageUrl := "https://img/sun",
    thumbnailUrl := none, description := some "a sunset beach", generatedBy := some ImageOrigin.user_upload }

/-- A session holding the dog and sunset images, with an empty active list. -/
def sessionC6 : SessionState :=
  { sessionId := "s6", createdAt := 0, lastActivity := 0,
    conversationHistory := []
    currentContext := { lastIntent := none, activeImages := [], pendingAction := none }
    uploadedImages := [("dog1", dogImage), ("sun1", sunsetImage)]
    generatedImages := []
    preferences := { preferredImageStyle := none, commonEditingInstructions := none,
                     chatPersonality := none }
    metadata := { totalMessages := 0, totalImagesUploaded := 2, totalImagesGenerated := 0 } }

/-- An edit request on session `s1` with no explicit target image. -/
def editRequestNoTarget : EditRequest :=
  { editInstruction := "Make this photo brighter", sessionId := "s1",
    targetImageId := none, editType := none, maskData := none,
    strength := none, guidance := none }

/-- The same edit request with an explicit (absent) target image id. -/
def editRequestExplicitTarget : EditRequest :=
  { editInstruction := "Make this photo brighter", sessionId := "s1",
    targetImageId := some "x", editType := none, maskData := none,
    strength := none, guidance := none }

/-- A dummy remote-edit outcome (never reached in the checked scenarios). -/
def dummyEditOutcome : EditApiOutcome :=
  { success := true, imageUrl := some "https://img/edited", size := some 1, error := none }

/-- A conversation turn fixture. -/
def turnFixture : ConversationTurn :=
  { id := "t1", timestamp := 0, userInput := "hello",
    detectedIntent := IntentType.chat, confidence := 1,
    response := TurnResponse.plain "hi", contextUsed := none }

/-- A concrete allowed operation sequence: create a session, add an image,
activate it explicitly, read the active list, record a turn. -/
def opsFixture : List SessionOp :=
  [SessionOp.create "s9" 0,
   SessionOp.addImg "s9" (mkGenImage 0) 0,
   SessionOp.setActive "s9" ["img0"] 0,
   SessionOp.getActive "s9" 0,
   SessionOp.addTurn "s9" turnFixture 0]

/-- A response text whose extracted JSON has a truthy string intent and the
non-numeric confidence value `abc`
(the braces of the JSON object are written as escapes). -/
def nanJsonResponseText : String :=
  "\x7b\"intent\":\"EDIT_IMAGE\",\"confidence\":\"abc\"\x7d"

/-- The JSON extraction on that response: the single-level object matches
the brace regex, `JSON.parse` succeeds, the intent is the truthy string
`EDIT_IMAGE`, and the confidence value is a string whose numeric coercion
is `NaN`. -/
def jsonOfNan : String → Option ParsedLLMJson :=
  fun t =>
    if t = nanJsonResponseText then
      some { intent := some "EDIT_IMAGE", confidence := some JsNum.nan }
    else none

/-- Whether a returned confidence is a number inside the unit interval. -/
def jsNumInUnit (c : JsNum) : Bool :=
  match c with
  | JsNum.num q => decide ((0 : Rat) ≤ q) && decide (q ≤ (1 : Rat))
  | JsNum.nan => false

/-! ## Poll-loop lemmas -/

/-- Unfolding equation of the aux loop at positive fuel. -/
theorem pollForCompletionAux_succ (remote : Nat → BFLResponse) (gid : String)
    (m attempts fuel : Nat) :
    pollForCompletionAux remote gid m attempts (fuel + 1) =
      (let r := remote attempts
       if r.status = FluxStatus.Ready ∨ r.status = FluxStatus.completed then
         (PollOutcome.ok (convertResult gid r), 1)
       else if r.status = FluxStatus.Error ∨ r.status = FluxStatus.failed then
         if m - 1 ≤ attempts then
           (PollOutcome.error (failedMessage r), 1)
         else
           let rest := pollForCompletionAux remote gid m (attempts + 1) fuel
           (rest.1, rest.2 + 1)
       else
         let rest := pollForCompletionAux remote gid m (attempts + 1) fuel
         (rest.1, rest.2 + 1)) := by
  rfl

/-- While the stub still reports `processing` and the budget allows reaching
query `n`, the loop runs to the terminal response and converts it. -/
theorem pollAux_processingThen_ok (gid : String) (n : Nat) (done : BFLResponse)
    (hdone : done.status = FluxStatus.completed) :
    ∀ fuel a m, m = a + fuel → a ≤ n → n < m →
      pollForCompletionAux (processingThenRemote n done) gid m a fuel =
        (PollOutcome.ok (convertResult gid done), n + 1 - a) := by
  intro fuel
  induction fuel with
  | zero => intro a m hm ha hn; omega
  | succ f ih =>
    intro a m hm ha hn
    rw [pollForCompletionAux_succ]
    by_cases hcase : a < n
    · have hproc : processingThenRemote n done a =
          { status := FluxStatus.processing, result := none, errorMessage := none } := by
        simp [processingThenRemote, hcase]
      simp only [hproc]
      rw [if_neg (by simp), if_neg (by simp)]
      rw [ih (a + 1) m (by omega) (by omega) hn]
      simp only []
      congr 1
      omega
    · have haeq : a = n := by omega
      subst haeq
      have hdoneAt : processingThenRemote a done a = done := by
        simp [processingThenRemote]
      simp only [hdoneAt]
      rw [if_pos (Or.inr hdone)]
      congr 1
      omega

/-- With the budget at most `n`, the stub never leaves `processing` and the
loop exhausts its fuel, making one query per iteration. -/
theorem pollAux_processingThen_timeout (gid : String) (n : Nat) (done : BFLResponse) :
    ∀ fuel a m, m = a + fuel → m ≤ n →
      pollForCompletionAux (processingThenRemote n done) gid m a fuel =
        (PollOutcome.error (timeoutMessage m), fuel) := by
  intro fuel
  induction fuel with
  | zero => intro a m hm hn; rfl
  | succ f ih =>
    intro a m hm hn
    rw [pollForCompletionAux_succ]
    have hproc : processingThenRemote n done a =
        { status := FluxStatus.processing, result := none, errorMessage := none } := by
      simp [processingThenRemote]
      omega
    simp only [hproc]
    rw [if_neg (by simp), if_neg (by simp)]
    rw [ih (a + 1) m (by omega) hn]

/-- An always-`failed` remote is retried (the throw is swallowed by the
catch) until the last allowed attempt, then the failure is rethrown. -/
theorem pollAux_constFailed (gid : String) (err : Option String) :
    ∀ fuel a m, m = a + fuel → 1 ≤ fuel →
      pollForCompletionAux (constFailedRemote err) gid m a fuel =
        (PollOutcome.error ("Image generation failed: " ++ jsOrS err "Unknown error"),
         fuel) := by
  intro fuel
  induction fuel with
  | zero => intro a m hm h1; omega
  | succ f ih =>
    intro a m hm h1
    rw [pollForCompletionAux_succ]
    have hfail : constFailedRemote err a =
        { status := FluxStatus.failed, result := none, errorMessage := err } := rfl
    simp only [hfail]
    rw [if_neg (by simp), if_pos (by simp)]
    by_cases hlast : f = 0
    · subst hlast
      rw [if_pos (by omega)]
      rfl
    · rw [if_neg (by omega)]
      rw [ih (a + 1) m (by omega) (by omega)]

/-- Any `ok` outcome of the loop is the conversion of some status-query
response with a terminal `Ready`/`completed` status. -/
theorem pollAux_ok_exists (remote : Nat → BFLResponse) (gid : String) (m : Nat) :
    ∀ fuel a res q,
      pollForCompletionAux remote gid m a fuel = (PollOutcome.ok res, q) →
      ∃ k, ((remote k).status = FluxStatus.Ready ∨ (remote k).status = FluxStatus.completed) ∧
        res = convertResult gid (remote k) := by
  intro fuel
  induction fuel with
  | zero => intro a res q h; simp [pollForCompletionAux] at h
  | succ f ih =>
    intro a res q h
    rw [pollForCompletionAux_succ] at h
    by_cases h1 : (remote a).status = FluxStatus.Ready ∨ (remote a).status = FluxStatus.completed
    · rw [if_pos h1] at h
      exact ⟨a, h1, by injection h with h2 h3; injection h2 with h4; exact h4.symm⟩
    · rw [if_neg h1] at h
      by_cases h2 : (remote a).status = FluxStatus.Error ∨ (remote a).status = FluxStatus.failed
      · rw [if_pos h2] at h
        by_cases h3 : m - 1 ≤ a
        · rw [if_pos h3] at h
          exact absurd h (by simp)
        · rw [if_neg h3] at h
          have h4 : pollForCompletionAux remote gid m (a + 1) f =
              ((pollForCompletionAux remote gid m (a + 1) f).1,
               (pollForCompletionAux remote gid m (a + 1) f).2) := rfl
          injection h with h5 h6
          exact ih (a + 1) res ((pollForCompletionAux remote gid m (a + 1) f).2)
            (by rw [← h5])
      · rw [if_neg h2] at h
        injection h with h5 h6
        exact ih (a + 1) res ((pollForCompletionAux remote gid m (a + 1) f).2)
          (by rw [← h5])

/-- Default dimensions apply exactly when the remote omits them. -/
theorem bflPick_default_of_omits (r : BFLResponse) (h : omitsDimensions r = true) :
    bflPickWidth r = 1024 ∧ bflPickHeight r = 1024 := by
  unfold omitsDimensions at h
  unfold bflPickWidth bflPickHeight bflImg0
  match hres : r.result with
  | none => simp [hres, jsTruthyN]
  | some res =>
    rw [hres] at h
    simp only [Bool.and_eq_true, Option.isNone_iff_eq_none, List.isEmpty_iff] at h
    obtain ⟨⟨hw, hh⟩, hi⟩ := h
    simp [hres, hw, hh, hi, jsTruthyN]

/-! ## Claim C1 -/

/-- C1, counterexample: with the default budget of 60 attempts, a remote
that reports `failed` with message `quota exceeded` on its very first
status query does NOT make the poll loop return immediately with exactly
that message: the loop performs 60 status queries (59 additional polls)
and surfaces the wrapped message `Image generation failed: quota exceeded`,
not the pair the claim predicts (the remote message after one query). -/
theorem pollForCompletion_failed_not_immediate :
    pollForCompletion quotaRemote "gen-1" 60 =
      (PollOutcome.error "Image generation failed: quota exceeded", 60) ∧
    (PollOutcome.error "Image generation failed: quota exceeded", (60 : Nat)) ≠
      (PollOutcome.error "quota exceeded", 1) := by
  exact ⟨rfl, by decide⟩

/-- C1, amended: for every polling run against a remote that reports
`failed` with (optional) message `err` on its status queries, the loop does
not fail immediately: the status-failure throw is swallowed by the catch
and retried, so the loop performs exactly `maxAttempts` status queries and
then surfaces a failure whose message is `Image generation failed: `
followed by the remote-supplied message (or `Unknown error` when the remote
supplies none or an empty one). -/
theorem pollForCompletion_failed_amended (gid : String) (err : Option String)
    (maxAttempts : Nat) (h : 1 ≤ maxAttempts) :
    pollForCompletion (constFailedRemote err) gid maxAttempts =
      (PollOutcome.error ("Image generation failed: " ++ jsOrS err "Unknown error"),
       maxAttempts) := by
  unfold pollForCompletion
  exact pollAux_constFailed gid err maxAttempts 0 maxAttempts (by omega) h

/-- Witness for the amended C1 theorem at a concrete input. -/
theorem pollForCompletion_failed_amended_witness :
    pollForCompletion (constFailedRemote (some "quota exceeded")) "gen-1" 2 =
      (PollOutcome.error ("Image generation failed: " ++
         jsOrS (some "quota exceeded") "Unknown error"), 2) :=
  pollForCompletion_failed_amended "gen-1" (some "quota exceeded") 2 (by decide)

/-! ## Claim C3 -/

/-- C3: against a remote stub that reports `processing` on its first `n`
status queries and a `completed` response on query `n + 1`, the poll loop
returns the converted `completed` result after exactly `n + 1` status
queries when `maxAttempts > n`, and with `maxAttempts <= n` it returns the
timed-out failure whose message carries the attempt count `maxAttempts`
(after exactly `maxAttempts` queries). -/
theorem pollForCompletion_processing_budget (gid : String) (n maxAttempts : Nat)
    (done : BFLResponse) (hdone : done.status = FluxStatus.completed) :
    (n < maxAttempts →
      pollForCompletion (processingThenRemote n done) gid maxAttempts =
        (PollOutcome.ok (convertResult gid done), n + 1) ∧
      (convertResult gid done).status = FluxStatus.completed) ∧
    (maxAttempts ≤ n →
      pollForCompletion (processingThenRemote n done) gid maxAttempts =
        (PollOutcome.error (timeoutMessage maxAttempts), maxAttempts)) := by
  constructor
  · intro hlt
    refine ⟨?_, rfl⟩
    unfold pollForCompletion
    have h := pollAux_processingThen_ok gid n done hdone maxAttempts 0 maxAttempts
      (by omega) (by omega) hlt
    simpa using h
  · intro hle
    unfold pollForCompletion
    exact pollAux_processingThen_timeout gid n done maxAttempts 0 maxAttempts
      (by omega) hle

/-- Witness for C3 at `n = 2` with budgets 4 (completes after 3 queries)
and 2 (times out after 2 queries). -/
theorem pollForCompletion_processing_budget_witness :
    pollForCompletion (processingThenRemote 2 doneResponseC3) "g" 4 =
      (PollOutcome.ok (convertResult "g" doneResponseC3), 3) ∧
    pollForCompletion (processingThenRemote 2 doneResponseC3) "g" 2 =
      (PollOutcome.error (timeoutMessage 2), 2) :=
  ⟨((pollForCompletion_processing_budget "g" 2 4 doneResponseC3 rfl).1 (by decide)).1,
   (pollForCompletion_processing_budget "g" 2 2 doneResponseC3 rfl).2 (by decide)⟩

/-! ## Claim C8 -/

/-- C8, counterexample: the canonical result of a completed run does NOT
default width/height to the request's requested dimensions. A request for
512 x 512 whose remote completes without dimension information yields a
result of width 1024, not 512: the defaults are the fixed 1024. -/
theorem generateImage_ignores_request_dimensions :
    firstImageWidth (generateImage (fun _ => "job1") remoteNoDims request512).1 =
      some 1024 ∧
    request512.width = some 512 ∧
    omitsDimensions doneResponseNoDims = true ∧
    some (1024 : Nat) ≠ some 512 := by
  exact ⟨rfl, rfl, rfl, by decide⟩

/-- C8, amended: every polling run that returns a `completed` result
normalizes some terminal remote response into a canonical result with a
single image whose content type is `image/jpeg` (defaulted when the remote
omits one — the remote image content type is in fact never copied), and
whose width and height default to the fixed 1024 (not the request's
dimensions) when the remote omits them. -/
theorem pollForCompletion_completed_normalization (remote : Nat → BFLResponse)
    (gid : String) (maxAttempts : Nat) (res : ConvertedResponse) (q : Nat)
    (h : pollForCompletion remote gid maxAttempts = (PollOutcome.ok res, q)) :
    res.status = FluxStatus.completed ∧
    res.images.length = 1 ∧
    (∀ img ∈ res.images, img.content_type = "image/jpeg") ∧
    ∃ k, ((remote k).status = FluxStatus.Ready ∨
          (remote k).status = FluxStatus.completed) ∧
      res = convertResult gid (remote k) ∧
      (omitsDimensions (remote k) = true →
        ∀ img ∈ res.images, img.width = 1024 ∧ img.height = 1024) := by
  obtain ⟨k, hk, hres⟩ := pollAux_ok_exists remote gid maxAttempts maxAttempts 0 res q h
  subst hres
  refine ⟨rfl, rfl, ?_, k, hk, rfl, ?_⟩
  · intro img himg
    simp [convertResult] at himg
    rw [himg]
  · intro homit img himg
    obtain ⟨hw, hh⟩ := bflPick_default_of_omits (remote k) homit
    simp [convertResult] at himg
    rw [himg]
    exact ⟨hw, hh⟩

/-- Witness for the amended C8 theorem: a remote that completes on its
first query without dimension information. -/
theorem pollForCompletion_completed_normalization_witness :
    (convertResult "g" doneResponseNoDims).status = FluxStatus.completed ∧
    (convertResult "g" doneResponseNoDims).images.length = 1 ∧
    (∀ img ∈ (convertResult "g" doneResponseNoDims).images,
       img.content_type = "image/jpeg") ∧
    ∃ k, ((remoteNoDims k).status = FluxStatus.Ready ∨
          (remoteNoDims k).status = FluxStatus.completed) ∧
      convertResult "g" doneResponseNoDims = convertResult "g" (remoteNoDims k) ∧
      (omitsDimensions (remoteNoDims k) = true →
        ∀ img ∈ (convertResult "g" doneResponseNoDims).images,
          img.width = 1024 ∧ img.height = 1024) :=
  pollForCompletion_completed_normalization remoteNoDims "g" 1
    (convertResult "g" doneResponseNoDims) 1 rfl
/-! ## Association-list lemmas for the JS map model -/

/-- Assoc lookup at the head when the head has the key. -/
theorem lookup_cons_eq_key {β : Type} (k : String) (p : String × β)
    (t : List (String × β)) (h : p.1 = k) : (p :: t).lookup k = some p.2 := by
  obtain ⟨a, b⟩ := p
  simp only at h
  subst h
  simp [List.lookup]

/-- Assoc lookup skips a head with a different key. -/
theorem lookup_cons_ne_key {β : Type} (k : String) (p : String × β)
    (t : List (String × β)) (h : p.1 ≠ k) : (p :: t).lookup k = t.lookup k := by
  obtain ⟨a, b⟩ := p
  simp only at h
  have hb : (k == a) = false := beq_eq_false_iff_ne.2 (fun hh => h hh.symm)
  simp [List.lookup, hb]

/-- A deleted key has no binding left. -/
theorem lookup_jsMapDelete_self {β : Type} (m : List (String × β)) (k : String) :
    (jsMapDelete m k).lookup k = none := by
  induction m with
  | nil => rfl
  | cons p t ih =>
    unfold jsMapDelete at ih ⊢
    by_cases h : p.1 = k
    · simp only [List.filter_cons]
      rw [if_neg (by simp [h])]
      exact ih
    · simp only [List.filter_cons]
      rw [if_pos (by simp [h])]
      rw [lookup_cons_ne_key k p _ h]
      exact ih

/-- Looking up the written key after an in-place update. -/
theorem lookup_map_update_self {β : Type} (m : List (String × β)) (k : String) (v : β) :
    (m.map (fun p => if p.1 = k then (k, v) else p)).lookup k =
      if (m.lookup k).isSome then some v else none := by
  induction m with
  | nil => rfl
  | cons p t ih =>
    by_cases h : p.1 = k
    · simp only [List.map_cons, if_pos h]
      rw [lookup_cons_eq_key k ((k, v) : String × β) _ rfl]
      rw [lookup_cons_eq_key k p t h]
      simp
    · simp only [List.map_cons, if_neg h]
      rw [lookup_cons_ne_key k p _ h, lookup_cons_ne_key k p t h]
      exact ih

/-- An in-place update at one key leaves other keys alone. -/
theorem lookup_map_update_ne {β : Type} (m : List (String × β)) (k id : String) (v : β)
    (hne : id ≠ k) :
    (m.map (fun p => if p.1 = k then (k, v) else p)).lookup id = m.lookup id := by
  induction m with
  | nil => rfl
  | cons p t ih =>
    by_cases h : p.1 = k
    · simp only [List.map_cons, if_pos h]
      rw [lookup_cons_ne_key id ((k, v) : String × β) _ (fun hh => hne hh.symm)]
      rw [lookup_cons_ne_key id p t (by rw [h]; exact fun hh => hne hh.symm)]
      exact ih
    · simp only [List.map_cons, if_neg h]
      by_cases h2 : p.1 = id
      · rw [lookup_cons_eq_key id p _ h2, lookup_cons_eq_key id p t h2]
      · rw [lookup_cons_ne_key id p _ h2, lookup_cons_ne_key id p t h2]
        exact ih

/-- Appending past a list without a binding for the key. -/
theorem lookup_append_of_none {β : Type} (m l : List (String × β)) (k : String)
    (h : m.lookup k = none) : (m ++ l).lookup k = l.lookup k := by
  induction m with
  | nil => rfl
  | cons p t ih =>
    by_cases hp : p.1 = k
    · rw [lookup_cons_eq_key k p t hp] at h
      exact absurd h (by simp)
    · rw [lookup_cons_ne_key k p t hp] at h
      rw [List.cons_append, lookup_cons_ne_key k p _ hp]
      exact ih h

/-- Appending one pair with a different key changes no other lookup. -/
theorem lookup_append_single_ne {β : Type} (m : List (String × β)) (k id : String)
    (v : β) (hne : id ≠ k) : (m ++ [(k, v)]).lookup id = m.lookup id := by
  induction m with
  | nil =>
    simp only [List.nil_append]
    rw [lookup_cons_ne_key id ((k, v) : String × β) _ (fun hh => hne hh.symm)]
  | cons p t ih =>
    by_cases hp : p.1 = id
    · rw [List.cons_append, lookup_cons_eq_key id p _ hp, lookup_cons_eq_key id p t hp]
    · rw [List.cons_append, lookup_cons_ne_key id p _ hp, lookup_cons_ne_key id p t hp]
      exact ih

/-- `jsMapSet` binds the written key to the written value. -/
theorem lookup_jsMapSet_self {β : Type} (m : List (String × β)) (k : String) (v : β) :
    (jsMapSet m k v).lookup k = some v := by
  unfold jsMapSet
  by_cases h : (m.lookup k).isSome
  · rw [if_pos h, lookup_map_update_self, if_pos h]
  · rw [if_neg h]
    rw [lookup_append_of_none m _ k (Option.not_isSome_iff_eq_none.1 h)]
    exact lookup_cons_eq_key k ((k, v) : String × β) [] rfl

/-- `jsMapSet` leaves other keys alone. -/
theorem lookup_jsMapSet_ne {β : Type} (m : List (String × β)) (k id : String) (v : β)
    (hne : id ≠ k) : (jsMapSet m k v).lookup id = m.lookup id := by
  unfold jsMapSet
  by_cases h : (m.lookup k).isSome
  · rw [if_pos h, lookup_map_update_ne m k id v hne]
  · rw [if_neg h, lookup_append_single_ne m k id v hne]

/-- A successful assoc lookup comes from a member pair. -/
theorem mem_of_lookup_some {β : Type} (m : List (String × β)) (k : String) (v : β)
    (h : m.lookup k = some v) : (k, v) ∈ m := by
  induction m with
  | nil => exact absurd h (by simp [List.lookup])
  | cons p t ih =>
    by_cases hp : p.1 = k
    · rw [lookup_cons_eq_key k p t hp] at h
      injection h with h2
      have : (k, v) = p := by
        rw [← hp, ← h2]
      rw [this]
      exact List.mem_cons_self p t
    · rw [lookup_cons_ne_key k p t hp] at h
      exact List.mem_cons_of_mem p (ih h)

/-- Every pair of a `jsMapSet` image is the written pair or an original one. -/
theorem mem_jsMapSet {β : Type} (m : List (String × β)) (k : String) (v : β)
    (p : String × β) (h : p ∈ jsMapSet m k v) : p = (k, v) ∨ p ∈ m := by
  unfold jsMapSet at h
  by_cases hs : (m.lookup k).isSome
  · rw [if_pos hs] at h
    obtain ⟨q, hq, hpq⟩ := List.mem_map.1 h
    by_cases hqk : q.1 = k
    · rw [if_pos hqk] at hpq
      exact Or.inl hpq.symm
    · rw [if_neg hqk] at hpq
      exact Or.inr (hpq ▸ hq)
  · rw [if_neg hs] at h
    rcases List.mem_append.1 h with h1 | h1
    · exact Or.inr h1
    · simp only [List.mem_singleton] at h1
      exact Or.inl h1

/-! ## Session-store lemmas -/

/-- `getSession` on an absent id. -/
theorem getSession_eq_absent (store : Store) (sid : String) (now : Nat)
    (h : store.lookup sid = none) : getSession store sid now = (none, store) := by
  unfold getSession
  rw [h]

/-- `getSession` on an expired session: not found, and deleted. -/
theorem getSession_eq_expired (store : Store) (sid : String) (now : Nat)
    (s : SessionState) (h : store.lookup sid = some s)
    (hexp : SESSION_TIMEOUT < now - s.lastActivity) :
    getSession store sid now = (none, jsMapDelete store sid) := by
  unfold getSession
  rw [h]
  dsimp only
  rw [if_pos hexp]

/-- `getSession` on a present, non-expired session: the stored session is
returned and the store is untouched. -/
theorem getSession_eq_found (store : Store) (sid : String) (now : Nat)
    (s : SessionState) (h : store.lookup sid = some s)
    (hexp : ¬ SESSION_TIMEOUT < now - s.lastActivity) :
    getSession store sid now = (some s, store) := by
  unfold getSession
  rw [h]
  dsimp only
  rw [if_neg hexp]

/-- Exhaustive behaviours of `getSession`. -/
theorem getSession_cases (store : Store) (sid : String) (now : Nat) :
    (∃ s, getSession store sid now = (some s, store) ∧ store.lookup sid = some s) ∨
    ((getSession store sid now).1 = none ∧
      ((getSession store sid now).2 = store ∨
       (getSession store sid now).2 = jsMapDelete store sid)) := by
  match h : store.lookup sid with
  | none =>
    rw [getSession_eq_absent store sid now h]
    exact Or.inr ⟨rfl, Or.inl rfl⟩
  | some s =>
    by_cases hexp : SESSION_TIMEOUT < now - s.lastActivity
    · rw [getSession_eq_expired store sid now s h hexp]
      exact Or.inr ⟨rfl, Or.inr rfl⟩
    · rw [getSession_eq_found store sid now s h hexp]
      exact Or.inl ⟨s, rfl, rfl⟩

/-! ## Claim C5 -/

/-- C5: `getSession` returns not-found for an id that is absent, and for a
stored session whose `lastActivity` is older than the 24h timeout it
returns not-found AND removes the session from the store as a side effect,
without any sweep having run. -/
theorem getSession_absent_or_expired (store : Store) (sid : String) (now : Nat) :
    (store.lookup sid = none → getSession store sid now = (none, store)) ∧
    (∀ s, store.lookup sid = some s → SESSION_TIMEOUT < now - s.lastActivity →
      (getSession store sid now).1 = none ∧
      ((getSession store sid now).2).lookup sid = none) := by
  constructor
  · intro h
    exact getSession_eq_absent store sid now h
  · intro s h hexp
    rw [getSession_eq_expired store sid now s h hexp]
    exact ⟨rfl, lookup_jsMapDelete_self store sid⟩

/-- Witness for C5: an absent id on the empty store, and a session created
at time 0 read one millisecond past the timeout. -/
theorem getSession_absent_or_expired_witness :
    getSession [] "nope" 5 = (none, []) ∧
    ((getSession emptySessionStore "s1" (SESSION_TIMEOUT + 1)).1 = none ∧
     ((getSession emptySessionStore "s1" (SESSION_TIMEOUT + 1)).2).lookup "s1" = none) :=
  ⟨(getSession_absent_or_expired [] "nope" 5).1 rfl,
   (getSession_absent_or_expired emptySessionStore "s1" (SESSION_TIMEOUT + 1)).2
     (createSession [] "s1" 0).1 rfl (by decide)⟩

/-! ## Claim C10 -/

/-- C10: reading a present, non-expired session with `getSession` returns
the stored session object itself and leaves the store untouched: no field
(in particular `lastActivity`) changes, so reads do not count as activity. -/
theorem getSession_read_is_pure (store : Store) (sid : String) (now : Nat)
    (s : SessionState) (h : store.lookup sid = some s)
    (hfresh : now - s.lastActivity ≤ SESSION_TIMEOUT) :
    getSession store sid now = (some s, store) :=
  getSession_eq_found store sid now s h (not_lt.2 hfresh)

/-- Witness for C10 on a freshly created session. -/
theorem getSession_read_is_pure_witness :
    getSession emptySessionStore "s1" 5 = (some (createSession [] "s1" 0).1,
      emptySessionStore) :=
  getSession_read_is_pure emptySessionStore "s1" 5 (createSession [] "s1" 0).1 rfl
    (by decide)

/-! ## Claim C2 -/

/-- C2, evaluation at the failing input: `addImage` does not prepend and
does not trim. After adding `img0` then `img1` to a session, the
active-image list is `[img0, img1]` — the head is the OLDER image, not the
newly added one; and after adding eleven images the eleventh (`img10`) is
stored in the generated-image map but never enters the active list, which
keeps the first ten in insertion order instead of the most recent ten. -/
theorem addImage_appends_and_drops_at_cap :
    activeIdsOf storeAfterTwoImages "s1" = ["img0", "img1"] ∧
    (mkGenImage 1).id = "img1" ∧
    activeIdsOf storeAfterElevenImages "s1" =
      ["img0", "img1", "img2", "img3", "img4", "img5", "img6", "img7", "img8", "img9"] ∧
    (match storeAfterElevenImages.lookup "s1" with
     | some s => (s.generatedImages.lookup "img10").isSome
     | none => false) = true := by
  exact ⟨rfl, rfl, rfl, rfl⟩

/-! ## Claim C9 counterexample -/

/-- C9, counterexample: `setActiveImages` stores arbitrary ids without
validating them against the image maps, so one call with a dangling id
breaks the every-active-id-is-in-exactly-one-map invariant. -/
theorem setActiveImages_dangling_counterexample :
    storeConsistent
      (expectStore emptySessionStore (setActiveImages emptySessionStore "s1" ["ghost"] 0)) =
      false ∧
    activeIdsOf
      (expectStore emptySessionStore (setActiveImages emptySessionStore "s1" ["ghost"] 0))
      "s1" = ["ghost"] ∧
    (match (expectStore emptySessionStore
        (setActiveImages emptySessionStore "s1" ["ghost"] 0)).lookup "s1" with
     | some s => (s.uploadedImages.lookup "ghost").isNone &&
                 (s.generatedImages.lookup "ghost").isNone
     | none => false) = true := by
  exact ⟨rfl, rfl, rfl⟩

/-! ## Invariant lemmas for claim C9 -/

/-- Each stored session of a consistent store is consistent. -/
theorem consistent_of_mem (store : Store) (p : String × SessionState)
    (h1 : storeConsistent store = true) (hp : p ∈ store) :
    sessionImagesConsistent p.2 = true := by
  rw [storeConsistent, List.all_eq_true] at h1
  exact h1 p hp

/-- Deleting a session preserves the invariant. -/
theorem storeConsistent_delete (store : Store) (k : String)
    (h1 : storeConsistent store = true) :
    storeConsistent (jsMapDelete store k) = true := by
  rw [storeConsistent, List.all_eq_true]
  intro p hp
  exact consistent_of_mem store p h1 (List.mem_of_mem_filter hp)

/-- Writing a consistent session preserves the invariant. -/
theorem storeConsistent_set (store : Store) (k : String) (v : SessionState)
    (h1 : storeConsistent store = true) (hv : sessionImagesConsistent v = true) :
    storeConsistent (jsMapSet store k v) = true := by
  rw [storeConsistent, List.all_eq_true]
  intro p hp
  rcases mem_jsMapSet store k v p hp with h | h
  · rw [h]
    exact hv
  · exact consistent_of_mem store p h1 h

/-- An id in exactly one map differs from any id absent from both. -/
theorem inExactlyOne_ne_of_fresh (u g : ImageMap) (k id : String)
    (hfu : u.lookup k = none) (hfg : g.lookup k = none)
    (h : inExactlyOne u g id = true) : id ≠ k := by
  intro he
  subst he
  rw [inExactlyOne, hfu, hfg] at h
  simp at h

/-- Extending the uploaded map at a different key changes nothing. -/
theorem inExactlyOne_extendU (u g : ImageMap) (k : String) (v : ImageMetadata)
    (id : String) (hne : id ≠ k) :
    inExactlyOne (jsMapSet u k v) g id = inExactlyOne u g id := by
  rw [inExactlyOne, inExactlyOne, lookup_jsMapSet_ne u k id v hne]

/-- Extending the generated map at a different key changes nothing. -/
theorem inExactlyOne_extendG (u g : ImageMap) (k : String) (v : ImageMetadata)
    (id : String) (hne : id ≠ k) :
    inExactlyOne u (jsMapSet g k v) id = inExactlyOne u g id := by
  rw [inExactlyOne, inExactlyOne, lookup_jsMapSet_ne g k id v hne]

/-- A key fresh for the generated map lands in exactly one map after being
written to the uploaded map. -/
theorem inExactlyOne_newU (u g : ImageMap) (k : String) (v : ImageMetadata)
    (hfg : g.lookup k = none) : inExactlyOne (jsMapSet u k v) g k = true := by
  rw [inExactlyOne, lookup_jsMapSet_self, hfg]
  simp

/-- A key fresh for the uploaded map lands in exactly one map after being
written to the generated map. -/
theorem inExactlyOne_newG (u g : ImageMap) (k : String) (v : ImageMetadata)
    (hfu : u.lookup k = none) : inExactlyOne u (jsMapSet g k v) k = true := by
  rw [inExactlyOne, lookup_jsMapSet_self, hfu]
  simp

/-- Adding a fresh image keeps the session consistent: old active ids keep
their unique map, and the new id (when it enters the active list) is in
exactly the map its origin selects. -/
theorem sessionImagesConsistent_addImageToSession (s : SessionState)
    (image : ImageMetadata) (now : Nat)
    (hcons : sessionImagesConsistent s = true)
    (hfu : s.uploadedImages.lookup image.id = none)
    (hfg : s.generatedImages.lookup image.id = none) :
    sessionImagesConsistent (addImageToSession s image now) = true := by
  rw [sessionImagesConsistent, List.all_eq_true] at hcons
  by_cases horig : image.generatedBy = some ImageOrigin.user_upload
  · by_cases hlen : s.currentContext.activeImages.length < MAX_ACTIVE_IMAGES
    · simp only [addImageToSession, if_pos horig, if_pos hlen]
      rw [sessionImagesConsistent, List.all_eq_true]
      intro id hid
      rcases List.mem_append.1 hid with hA | hone
      · have h0 := hcons id hA
        rw [imageInExactlyOne] at h0 ⊢
        have hne := inExactlyOne_ne_of_fresh _ _ image.id id hfu hfg h0
        rw [inExactlyOne_extendU _ _ image.id image id hne]
        exact h0
      · simp only [List.mem_singleton] at hone
        subst hone
        rw [imageInExactlyOne]
        exact inExactlyOne_newU _ _ image.id image hfg
    · simp only [addImageToSession, if_pos horig, if_neg hlen]
      rw [sessionImagesConsistent, List.all_eq_true]
      intro id hid
      have h0 := hcons id hid
      rw [imageInExactlyOne] at h0 ⊢
      have hne := inExactlyOne_ne_of_fresh _ _ image.id id hfu hfg h0
      rw [inExactlyOne_extendU _ _ image.id image id hne]
      exact h0
  · by_cases hlen : s.currentContext.activeImages.length < MAX_ACTIVE_IMAGES
    · simp only [addImageToSession, if_neg horig, if_pos hlen]
      rw [sessionImagesConsistent, List.all_eq_true]
      intro id hid
      rcases List.mem_append.1 hid with hA | hone
      · have h0 := hcons id hA
        rw [imageInExactlyOne] at h0 ⊢
        have hne := inExactlyOne_ne_of_fresh _ _ image.id id hfu hfg h0
        rw [inExactlyOne_extendG _ _ image.id image id hne]
        exact h0
      · simp only [List.mem_singleton] at hone
        subst hone
        rw [imageInExactlyOne]
        exact inExactlyOne_newG _ _ image.id image hfu
    · simp only [addImageToSession, if_neg horig, if_neg hlen]
      rw [sessionImagesConsistent, List.all_eq_true]
      intro id hid
      have h0 := hcons id hid
      rw [imageInExactlyOne] at h0 ⊢
      have hne := inExactlyOne_ne_of_fresh _ _ image.id id hfu hfg h0
      rw [inExactlyOne_extendG _ _ image.id image id hne]
      exact h0


/-- One allowed operation preserves the invariant. -/
theorem applySessionOp_preserves (store : Store) (op : SessionOp)
    (h1 : storeConsistent store = true) (h2 : sessionOpAllowed store op = true) :
    storeConsistent (applySessionOp store op) = true := by
  cases op with
  | create sid now =>
    simp only [applySessionOp, createSession]
    exact storeConsistent_set store sid _ h1 rfl
  | addImg sid img now =>
    rcases getSession_cases store sid now with ⟨s, hg, hlook⟩ | ⟨hg1, hg2⟩
    · have hcons : sessionImagesConsistent s = true :=
        consistent_of_mem store (sid, s) h1 (mem_of_lookup_some store sid s hlook)
      simp only [sessionOpAllowed, hg, Bool.and_eq_true,
        Option.isNone_iff_eq_none] at h2
      simp only [applySessionOp, addImage, hg]
      exact storeConsistent_set store sid _ h1
        (sessionImagesConsistent_addImageToSession s img now hcons h2.1 h2.2)
    · cases hgs : getSession store sid now with
      | mk o store2 =>
        rw [hgs] at hg1 hg2
        have ho : o = none := hg1
        subst ho
        simp only [applySessionOp, addImage, hgs]
        rcases hg2 with h | h
        · rw [show store2 = store from h]
          exact h1
        · rw [show store2 = jsMapDelete store sid from h]
          exact storeConsistent_delete store sid h1
  | addTurn sid turn now =>
    rcases getSession_cases store sid now with ⟨s, hg, hlook⟩ | ⟨hg1, hg2⟩
    · have hcons : sessionImagesConsistent s = true :=
        consistent_of_mem store (sid, s) h1 (mem_of_lookup_some store sid s hlook)
      simp only [applySessionOp, addConversationTurn, hg]
      exact storeConsistent_set store sid _ h1 hcons
    · cases hgs : getSession store sid now with
      | mk o store2 =>
        rw [hgs] at hg1 hg2
        have ho : o = none := hg1
        subst ho
        simp only [applySessionOp, addConversationTurn, hgs]
        rcases hg2 with h | h
        · rw [show store2 = store from h]
          exact h1
        · rw [show store2 = jsMapDelete store sid from h]
          exact storeConsistent_delete store sid h1
  | setActive sid ids now =>
    rcases getSession_cases store sid now with ⟨s, hg, hlook⟩ | ⟨hg1, hg2⟩
    · simp only [sessionOpAllowed, hg] at h2
      simp only [applySessionOp, setActiveImages, hg]
      apply storeConsistent_set store sid _ h1
      rw [sessionImagesConsistent, List.all_eq_true]
      intro id hid
      rw [List.all_eq_true] at h2
      exact h2 id (List.take_subset MAX_ACTIVE_IMAGES ids hid)
    · cases hgs : getSession store sid now with
      | mk o store2 =>
        rw [hgs] at hg1 hg2
        have ho : o = none := hg1
        subst ho
        simp only [applySessionOp, setActiveImages, hgs]
        rcases hg2 with h | h
        · rw [show store2 = store from h]
          exact h1
        · rw [show store2 = jsMapDelete store sid from h]
          exact storeConsistent_delete store sid h1
  | getActive sid now =>
    rcases getSession_cases store sid now with ⟨s, hg, hlook⟩ | ⟨hg1, hg2⟩
    · simp only [applySessionOp, getActiveImages, hg]
      exact h1
    · cases hgs : getSession store sid now with
      | mk o store2 =>
        rw [hgs] at hg1 hg2
        have ho : o = none := hg1
        subst ho
        simp only [applySessionOp, getActiveImages, hgs]
        rcases hg2 with h | h
        · rw [show store2 = store from h]
          exact h1
        · rw [show store2 = jsMapDelete store sid from h]
          exact storeConsistent_delete store sid h1

/-! ## Claim C9 amended -/

/-- C9, amended: after every sequence of session-store operations
(createSession, addImage, addConversationTurn, setActiveImages,
getActiveImages) starting from a consistent store, in which every
`addImage` uses an image id fresh for its session and every
`setActiveImages` passes only ids present in exactly one of the session's
image maps, every id of every session's active-image list exists in exactly
one of that session's uploaded/generated maps. Unrestricted
`setActiveImages` (and re-adding an id under the other origin) can break
the invariant, as the counterexample shows. -/
theorem sessionOps_preserve_consistency (ops : List SessionOp) (store : Store)
    (h1 : storeConsistent store = true) (h2 : sessionOpsAllowed store ops = true) :
    storeConsistent (runSessionOps store ops) = true := by
  induction ops generalizing store with
  | nil => exact h1
  | cons op rest ih =>
    rw [sessionOpsAllowed, Bool.and_eq_true] at h2
    rw [runSessionOps, List.foldl_cons]
    exact ih (applySessionOp store op) (applySessionOp_preserves store op h1 h2.1) h2.2

/-- Witness for the amended C9 theorem on a concrete allowed sequence. -/
theorem sessionOps_preserve_consistency_witness :
    storeConsistent ([] : Store) = true ∧
    sessionOpsAllowed ([] : Store) opsFixture = true ∧
    storeConsistent (runSessionOps ([] : Store) opsFixture) = true :=
  ⟨rfl, rfl, sessionOps_preserve_consistency opsFixture [] rfl rfl⟩

/-! ## Claim C6 -/

/-- C6, counterexample: with an empty active list and no recency/origin
marker, the resolver does NOT try every token. For the instruction
`brighten sunset`, the claim's any-token rule picks the older sunset image
(token `sunset` matches its description), but the code only tests the
first token `brighten`, finds no match, and falls back to the most recent
image (the dog photo). -/
theorem determineTargetImage_any_token_counterexample :
    determineTargetImage sessionC6 "brighten sunset" = some "dog1" ∧
    anyTokenKeywordTarget sessionC6 "brighten sunset" = some "sun1" ∧
    sessionC6.currentContext.activeImages = [] ∧
    hasRecencyOrOriginMarker "brighten sunset" = false ∧
    ("dog1" : String) ≠ "sun1" := by
  refine ⟨by decide, by decide, rfl, by decide, by decide⟩

/-- C6, amended: with an empty active-image list and an instruction
containing neither a recency marker (`last`/`recent`) nor an origin marker
(`first`/`original`), the resolver performs the keyword-match step on the
FIRST whitespace token of the instruction only: it returns the first image
in recency order whose description or original filename contains that
token case-insensitively, falling back to the most recent image (and to
none when the session has no images). -/
theorem determineTargetImage_keyword_is_first_token (s : SessionState)
    (instruction : String)
    (hActive : s.currentContext.activeImages = [])
    (hM : hasRecencyOrOriginMarker instruction = false) :
    determineTargetImage s instruction = keywordStepTarget s instruction := by
  rw [hasRecencyOrOriginMarker, Bool.or_eq_false_iff, Bool.or_eq_false_iff,
    Bool.or_eq_false_iff] at hM
  obtain ⟨⟨⟨hLast, hRecent⟩, hFirst⟩, hOriginal⟩ := hM
  simp only [determineTargetImage, keywordStepTarget]
  rw [hActive]
  rw [if_neg (by simp)]
  by_cases hemp : (allSessionImages s).length = 0
  · rw [if_pos hemp]
    have h0 : allSessionImages s = [] := List.length_eq_zero.1 hemp
    rw [h0]
    rfl
  · rw [if_neg hemp]
    rw [if_neg (by simp [hLast, hRecent])]
    rw [if_neg (by simp [hFirst, hOriginal])]

/-- Witness for the amended C6 theorem on the two-image session. -/
theorem determineTargetImage_keyword_is_first_token_witness :
    determineTargetImage sessionC6 "brighten sunset" =
      keywordStepTarget sessionC6 "brighten sunset" :=
  determineTargetImage_keyword_is_first_token sessionC6 "brighten sunset" rfl (by decide)

/-! ## Claim C7 -/

/-- C7, counterexample: an edit request that carries an explicit target
image id on a session with no images fails with `Target image not found in
session` and NO suggestion strings (and no remote call), so the claim as
stated over every edit request fails its at-least-one-suggestion part. -/
theorem execute_explicit_target_no_suggestions :
    (execute emptySessionStore editRequestExplicitTarget 0
      ("Make this photo brighter", "enhance") dummyEditOutcome "new1").1.success =
      false ∧
    (execute emptySessionStore editRequestExplicitTarget 0
      ("Make this photo brighter", "enhance") dummyEditOutcome "new1").1.suggestions =
      none ∧
    (execute emptySessionStore editRequestExplicitTarget 0
      ("Make this photo brighter", "enhance") dummyEditOutcome "new1").1.error =
      some "Target image not found in session" ∧
    (execute emptySessionStore editRequestExplicitTarget 0
      ("Make this photo brighter", "enhance") dummyEditOutcome "new1").2.2 = 0 := by
  exact ⟨rfl, rfl, rfl, rfl⟩

/-- C7, amended: for every edit request WITHOUT an explicit target image id
on an existing session whose uploaded and generated image maps and
active-image list are all empty, the edit path fails with one of the two
no-image-available messages, returns the fixed non-empty suggestion list,
and performs zero remote edit calls. -/
theorem execute_no_images_failure (store : Store) (req : EditRequest) (now : Nat)
    (analyze : String × String) (fluxEdit : EditApiOutcome) (newId : String)
    (s : SessionState)
    (hTid : req.targetImageId = none)
    (hs : getSession store req.sessionId now = (some s, store))
    (hU : s.uploadedImages = []) (hG : s.generatedImages = [])
    (hA : s.currentContext.activeImages = []) :
    (execute store req now analyze fluxEdit newId).1.success = false ∧
    (execute store req now analyze fluxEdit newId).2.2 = 0 ∧
    (execute store req now analyze fluxEdit newId).1.suggestions =
      some noTargetSuggestions ∧
    0 < noTargetSuggestions.length ∧
    ((execute store req now analyze fluxEdit newId).1.error =
        some (noImagesSpecificMessage (strToLower req.editInstruction)) ∨
     (execute store req now analyze fluxEdit newId).1.error =
        some noImagesGenericMessage) := by
  have hTarget : determineTargetImage s req.editInstruction = none := by
    simp [determineTargetImage, allSessionImages, hU, hG, hA, sortImagesByRecency]
  refine ⟨?_, ?_, ?_, by decide, ?_⟩
  · simp [execute, hs, hTid, hTarget]
  · simp [execute, hs, hTid, hTarget]
  · simp [execute, hs, hTid, hTarget]
  · simp only [execute, hs, hTid, hTarget]
    simp only [getContextualErrorMessage, hU, hG, List.length_nil]
    rw [if_pos (by simp)]
    split
    · exact Or.inl rfl
    · exact Or.inr rfl

/-- Witness for the amended C7 theorem on the fresh empty session. -/
theorem execute_no_images_failure_witness :
    (execute emptySessionStore editRequestNoTarget 0
      ("Make this photo brighter", "enhance") dummyEditOutcome "new1").1.success =
        false ∧
    (execute emptySessionStore editRequestNoTarget 0
      ("Make this photo brighter", "enhance") dummyEditOutcome "new1").2.2 = 0 ∧
    (execute emptySessionStore editRequestNoTarget 0
      ("Make this photo brighter", "enhance") dummyEditOutcome "new1").1.suggestions =
      some noTargetSuggestions ∧
    0 < noTargetSuggestions.length ∧
    ((execute emptySessionStore editRequestNoTarget 0
        ("Make this photo brighter", "enhance") dummyEditOutcome "new1").1.error =
        some (noImagesSpecificMessage (strToLower editRequestNoTarget.editInstruction)) ∨
     (execute emptySessionStore editRequestNoTarget 0
        ("Make this photo brighter", "enhance") dummyEditOutcome "new1").1.error =
        some noImagesGenericMessage) :=
  execute_no_images_failure emptySessionStore editRequestNoTarget 0
    ("Make this photo brighter", "enhance") dummyEditOutcome "new1"
    (createSession [] "s1" 0).1 rfl rfl rfl rfl rfl

/-! ## Claim C4 -/

/-- Every `IntentType` value is one of the four enumerated intents. -/
theorem intentType_cases (i : IntentType) :
    i = IntentType.chat ∨ i = IntentType.generate_image ∨
    i = IntentType.edit_image ∨ i = IntentType.unknown := by
  cases i
  · exact Or.inl rfl
  · exact Or.inr (Or.inl rfl)
  · exact Or.inr (Or.inr (Or.inl rfl))
  · exact Or.inr (Or.inr (Or.inr rfl))

/-- The text-scan fallback only produces the confidences 0.7 and 0.6. -/
theorem parseTextFallback_confidence (clean : String → List String → String)
    (responseText originalInput : String) :
    (parseTextFallback clean responseText originalInput).confidence =
      JsNum.num (7 / 10) ∨
    (parseTextFallback clean responseText originalInput).confidence =
      JsNum.num (6 / 10) := by
  unfold parseTextFallback
  dsimp only
  split
  · exact Or.inl rfl
  · split
    · exact Or.inl rfl
    · exact Or.inr rfl

/-- The JSON-guard step either falls through to the text scan or commits to
the extracted truthy intent and defined confidence. -/
theorem parseJsonBranch_spec (clean : String → List String → String)
    (responseText originalInput : String) (parsed : ParsedLLMJson) :
    parseJsonBranch clean responseText originalInput parsed =
      parseTextFallback clean responseText originalInput ∨
    ∃ i c, jsTruthyS parsed.intent = some i ∧ parsed.confidence = some c ∧
      parseJsonBranch clean responseText originalInput parsed =
        jsonIntentResult clean originalInput i c := by
  unfold parseJsonBranch
  cases hi : jsTruthyS parsed.intent with
  | none => exact Or.inl rfl
  | some i =>
    cases hc : parsed.confidence with
    | none => exact Or.inl rfl
    | some c => exact Or.inr ⟨i, c, rfl, rfl, rfl⟩

/-- Every `parseLLMResponse` result is the text-scan fallback or the
clamped JSON result of some extracted object. -/
theorem parseLLMResponse_cases (jsonOf : String → Option ParsedLLMJson)
    (clean : String → List String → String) (responseText originalInput : String) :
    parseLLMResponse jsonOf clean responseText originalInput =
      parseTextFallback clean responseText originalInput ∨
    ∃ parsed i c, jsonOf responseText = some parsed ∧
      jsTruthyS parsed.intent = some i ∧ parsed.confidence = some c ∧
      parseLLMResponse jsonOf clean responseText originalInput =
        jsonIntentResult clean originalInput i c := by
  unfold parseLLMResponse
  cases ho : jsonOf responseText with
  | none => exact Or.inl rfl
  | some parsed =>
    rcases parseJsonBranch_spec clean responseText originalInput parsed with
      h | ⟨i, c, hi, hc, h⟩
    · exact Or.inl h
    · exact Or.inr ⟨parsed, i, c, rfl, hi, hc, h⟩

/-- The confidence of a committed JSON result is the clamp of the parsed
value. -/
theorem jsonIntentResult_confidence (clean : String → List String → String)
    (originalInput : String) (i : String) (c : JsNum) :
    (jsonIntentResult clean originalInput i c).confidence = clampConfidence c :=
  rfl

/-- C4, counterexample: the classifier can return a confidence outside
[0,1]. For a response whose extracted JSON carries the truthy intent
`EDIT_IMAGE` and the non-numeric confidence `abc`, the guard
`parsed.intent && parsed.confidence !== undefined` passes and
`Math.max(0, Math.min(1, confidence))` propagates `NaN`, so `detectIntent`
returns success with intent `edit_image` and confidence `NaN` — not a
number in the unit interval, refuting the claimed bound. -/
theorem detectIntent_nan_confidence_counterexample :
    (detectIntent jsonOfNan (fun s _ => s) true
      (LLMOutcome.response nanJsonResponseText) "make it darker").success = true ∧
    ((detectIntent jsonOfNan (fun s _ => s) true
      (LLMOutcome.response nanJsonResponseText) "make it darker").data.map
        (fun d => d.intent)) = some IntentType.edit_image ∧
    ((detectIntent jsonOfNan (fun s _ => s) true
      (LLMOutcome.response nanJsonResponseText) "make it darker").data.map
        (fun d => d.confidence)) = some JsNum.nan ∧
    ((detectIntent jsonOfNan (fun s _ => s) true
      (LLMOutcome.response nanJsonResponseText) "make it darker").data.map
        (fun d => jsNumInUnit d.confidence)) = some false := by
  refine ⟨rfl, by decide, by decide, by decide⟩

/-- C4, amended: `detectIntent` never propagates an exception: it always
reports success with a label among the four enumerated intents. Every
NUMERIC confidence it returns lies in [0,1] (parsed numbers are clamped,
the fallback constants are 0.5, 0.6 and 0.7), but the confidence is `NaN`
— outside the unit interval — exactly when the response's extracted JSON
combined a truthy intent with a defined non-numeric confidence value.
Whenever any internal step fails (service not initialized, LLM call threw,
stream without a parseable result), the result is the `chat` intent with
confidence exactly 0.5 and the original input as the extracted prompt
parameter. -/
theorem detectIntent_total_and_bounded (jsonOf : String → Option ParsedLLMJson)
    (clean : String → List String → String) (initialized : Bool)
    (llm : LLMOutcome) (input : String) :
    (detectIntent jsonOf clean initialized llm input).success = true ∧
    (∃ d, (detectIntent jsonOf clean initialized llm input).data = some d ∧
      (d.intent = IntentType.chat ∨ d.intent = IntentType.generate_image ∨
       d.intent = IntentType.edit_image ∨ d.intent = IntentType.unknown) ∧
      (∀ q, d.confidence = JsNum.num q → 0 ≤ q ∧ q ≤ 1) ∧
      (d.confidence = JsNum.nan →
        ∃ t parsed i, llm = LLMOutcome.response t ∧
          jsonOf (strTrim t) = some parsed ∧
          jsTruthyS parsed.intent = some i ∧
          parsed.confidence = some JsNum.nan)) ∧
    ((initialized = false ∨ llm = LLMOutcome.failure ∨ llm = LLMOutcome.noResult) →
      (detectIntent jsonOf clean initialized llm input).data =
        some { intent := IntentType.chat, confidence := JsNum.num (1 / 2)
               extractedParams := { prompt := some input, imageUrl := none,
                                    editInstructions := none } }) := by
  have hfallbackCase : ∀ d : IntentResult,
      d.confidence = JsNum.num (1 / 2) →
      (∀ q, d.confidence = JsNum.num q → 0 ≤ q ∧ q ≤ 1) ∧
      (d.confidence = JsNum.nan →
        ∃ t parsed i, llm = LLMOutcome.response t ∧
          jsonOf (strTrim t) = some parsed ∧
          jsTruthyS parsed.intent = some i ∧
          parsed.confidence = some JsNum.nan) := by
    intro d hd
    constructor
    · intro q hq
      rw [hd] at hq
      injection hq with h2
      rw [← h2]
      norm_num
    · intro hn
      rw [hd] at hn
      exact absurd hn (by simp)
  by_cases hinit : initialized = false
  · unfold detectIntent
    rw [if_pos hinit]
    exact ⟨rfl, ⟨_, rfl, Or.inl rfl, (hfallbackCase _ rfl).1, (hfallbackCase _ rfl).2⟩,
      fun _ => rfl⟩
  · cases llm with
    | failure =>
      unfold detectIntent
      rw [if_neg hinit]
      exact ⟨rfl, ⟨_, rfl, Or.inl rfl, (hfallbackCase _ rfl).1, (hfallbackCase _ rfl).2⟩,
        fun _ => rfl⟩
    | noResult =>
      unfold detectIntent
      rw [if_neg hinit]
      exact ⟨rfl, ⟨_, rfl, Or.inl rfl, (hfallbackCase _ rfl).1, (hfallbackCase _ rfl).2⟩,
        fun _ => rfl⟩
    | response t =>
      unfold detectIntent
      rw [if_neg hinit]
      refine ⟨rfl, ⟨parseLLMResponse jsonOf clean (strTrim t) input, rfl,
        intentType_cases _, ?_, ?_⟩, ?_⟩
      · intro q hq
        rcases parseLLMResponse_cases jsonOf clean (strTrim t) input with
          hfb | ⟨parsed, i, c, ho, hi, hc, hjson⟩
        · rw [hfb] at hq
          rcases parseTextFallback_confidence clean (strTrim t) input with h | h <;>
            (rw [h] at hq
             injection hq with h2
             rw [← h2]
             norm_num)
        · rw [hjson, jsonIntentResult_confidence] at hq
          cases c with
          | num q0 =>
            rw [clampConfidence] at hq
            injection hq with h2
            rw [← h2]
            exact ⟨le_max_left 0 (min 1 q0), max_le (by norm_num) (min_le_left 1 q0)⟩
          | nan => exact absurd hq (by rw [clampConfidence]; simp)
      · intro hn
        rcases parseLLMResponse_cases jsonOf clean (strTrim t) input with
          hfb | ⟨parsed, i, c, ho, hi, hc, hjson⟩
        · rw [hfb] at hn
          rcases parseTextFallback_confidence clean (strTrim t) input with h | h <;>
            (rw [h] at hn
             exact absurd hn (by simp))
        · rw [hjson, jsonIntentResult_confidence] at hn
          cases c with
          | num q0 => exact absurd hn (by rw [clampConfidence]; simp)
          | nan => exact ⟨t, parsed, i, rfl, ho, hi, hc⟩
      · rintro (h | h | h)
        · exact absurd h hinit
        · exact absurd h (by simp)
        · exact absurd h (by simp)

/-- Witness for the amended C4 theorem on a failed LLM call. -/
theorem detectIntent_total_and_bounded_witness :
    (detectIntent (fun _ => none) (fun s _ => s) false LLMOutcome.failure
      "hello").success = true ∧
    (∃ d, (detectIntent (fun _ => none) (fun s _ => s) false LLMOutcome.failure
        "hello").data = some d ∧
      (d.intent = IntentType.chat ∨ d.intent = IntentType.generate_image ∨
       d.intent = IntentType.edit_image ∨ d.intent = IntentType.unknown) ∧
      (∀ q, d.confidence = JsNum.num q → 0 ≤ q ∧ q ≤ 1) ∧
      (d.confidence = JsNum.nan →
        ∃ t parsed i, LLMOutcome.failure = LLMOutcome.response t ∧
          (fun (_ : String) => (none : Option ParsedLLMJson)) (strTrim t) =
            some parsed ∧
          jsTruthyS parsed.intent = some i ∧
          parsed.confidence = some JsNum.nan)) ∧
    ((false = false ∨ LLMOutcome.failure = LLMOutcome.failure ∨
        LLMOutcome.failure = LLMOutcome.noResult) →
      (detectIntent (fun _ => none) (fun s _ => s) false LLMOutcome.failure
          "hello").data =
        some { intent := IntentType.chat, confidence := JsNum.num (1 / 2)
               extractedParams := { prompt := some "hello", imageUrl := none,
                                    editInstructions := none } }) :=
  detectIntent_total_and_bounded (fun _ => none) (fun s _ => s) false
    LLMOutcome.failure "hello"
